import Mathlib

/-!
Verification of the network-aware fee-calculation core of the eth-sender
patch set (BSC compatibility for an Ethereum L1-settlement client).

Shallow embedding conventions:
* Rust `u64` values are modelled as `Nat`; arithmetic that can overflow in
  the source (release-mode wrapping semantics) is modelled with an explicit
  `% 2^64` (`wmul`, `wadd`).
* Rust `f64` values and operations are modelled exactly over `ℚ`; the
  literal constants `2.00`, `1.10`, `0.15`, `0.1` are modelled as the exact
  rationals `2`, `11/10`, `3/20`, `1/10`.  All concrete inputs appearing in
  witnesses and counterexamples are integers below `2^53` or powers of two,
  on which the corresponding IEEE-754 double computations are exact up to
  the final unit-in-the-last-place of the decay multiplier.
* A Rust `as u64` cast from `f64` truncates toward zero and saturates; it is
  modelled by `rat_to_u64`.  `f64::ceil` followed by `as u64` is modelled by
  `rat_ceil_to_u64`.
* Rust `panic!` (a diverging call) is modelled as a distinguished outcome,
  kept separate from the `Result::Err` values the caller can observe.
* The environment variable `L1_CHAIN_ID` read by the oracle is passed
  explicitly as an `Option String` argument (`none` = unset).
* The external `TxParamsProvider` gas-price source is modelled as an
  immutable snapshot of pure numeric reads, exactly the methods the oracle
  calls.
-/

namespace ZkFees

/-- Wrap modulus of Rust `u64`. -/
def U64MOD : Nat := 2 ^ 64

/-- Wrapping `u64` multiplication (Rust release-mode semantics). -/
def wmul (a b : Nat) : Nat := (a * b) % U64MOD

/-- Wrapping `u64` addition (Rust release-mode semantics). -/
def wadd (a b : Nat) : Nat := (a + b) % U64MOD

/-- Rust `as u64` cast from `f64`: truncate toward zero, saturate to
`[0, 2^64 - 1]`.  Modelled over `ℚ`. -/
def rat_to_u64 (q : ℚ) : Nat :=
  if q ≤ 0 then 0 else min ⌊q⌋.toNat (U64MOD - 1)

/-- Rust `f64::ceil` followed by `as u64` (saturating). -/
def rat_ceil_to_u64 (q : ℚ) : Nat :=
  if q ≤ 0 then 0 else min ⌈q⌉.toNat (U64MOD - 1)

/-- `NetworkType` from `network_aware/network_detector.rs` (the same enum is
re-declared privately in `eth_fees_oracle.rs`). -/
inductive NetworkType where
  | Ethereum
  | Bsc
  | Other
deriving DecidableEq, Repr

/-- `detect_network_type` from `network_aware/network_detector.rs`: the Rust
`match` on chain-id literals is an ordered equality test chain. -/
def detect_network_type (chain_id : Nat) : NetworkType :=
  if chain_id = 1 ∨ chain_id = 5 ∨ chain_id = 11155111 then .Ethereum
  else if chain_id = 56 ∨ chain_id = 97 then .Bsc
  else .Other

/-- Rust `str::parse::<u64>`: an optional leading `+`, then one or more
ASCII digits, value below `2^64`; anything else fails. -/
def parse_u64 (s : String) : Option Nat :=
  let cs := match s.data with
    | '+' :: rest => rest
    | cs => cs
  if cs = [] then none
  else if cs.all Char.isDigit then
    let v := cs.foldl (fun a c => a * 10 + (c.toNat - 48)) 0
    if v < U64MOD then some v else none
  else none

/-- `detect_network_type_from_env` from `eth_fees_oracle.rs`: reads the
`L1_CHAIN_ID` environment variable (modelled as the `env` argument), parses
it as `u64` and classifies with the same literal match as
`detect_network_type`; an unset variable or a failed parse defaults to
`Ethereum`. -/
def detect_network_type_from_env (env : Option String) : NetworkType :=
  match env with
  | some chain_id_str =>
    match parse_u64 chain_id_str with
    | some chain_id =>
      if chain_id = 1 ∨ chain_id = 5 ∨ chain_id = 11155111 then .Ethereum
      else if chain_id = 56 ∨ chain_id = 97 then .Bsc
      else .Other
    | none => .Ethereum
  | none => .Ethereum

end ZkFees

namespace ZkFees

/-- `BscBaseFeeConfig` from `bsc_fee_config.rs`. -/
structure BscBaseFeeConfig where
  min_base_fee : Nat
  max_base_fee : Nat
  target_base_fee : Nat
  safety_margin_percent : Nat
deriving DecidableEq, Repr

/-- `BscPriorityFeeConfig` from `bsc_fee_config.rs`. -/
structure BscPriorityFeeConfig where
  min_priority_fee : Nat
  max_priority_fee : Nat
  fast_priority_fee : Nat
deriving DecidableEq, Repr

/-- `BscCongestionConfig` from `bsc_fee_config.rs`. -/
structure BscCongestionConfig where
  congestion_threshold : Nat
  congestion_boost_percent : Nat
  assessment_window_blocks : Nat
deriving DecidableEq, Repr

/-- `BscResendConfig` from `bsc_fee_config.rs` (`time_decay_boost_percent`
is an `f64` in the source, modelled over `ℚ`). -/
structure BscResendConfig where
  price_bump_multiplier : Nat
  time_decay_boost_percent : ℚ
  max_resend_attempts : Nat
deriving DecidableEq, Repr

/-- `BscFeeOptimizationConfig` from `bsc_fee_config.rs`. -/
structure BscFeeOptimizationConfig where
  enabled : Bool
  base_fee_config : BscBaseFeeConfig
  priority_fee_config : BscPriorityFeeConfig
  congestion_config : BscCongestionConfig
  resend_config : BscResendConfig
deriving DecidableEq, Repr

/-- `BscFeeOptimizationConfig::validate` from `bsc_fee_config.rs`: the
ordered chain of checks, `Err` carrying the source's message. -/
def BscFeeOptimizationConfig.validate
    (c : BscFeeOptimizationConfig) : Except String Unit :=
  if c.base_fee_config.min_base_fee ≥ c.base_fee_config.max_base_fee then
    .error "min_base_fee must be less than max_base_fee"
  else if c.base_fee_config.target_base_fee < c.base_fee_config.min_base_fee
      ∨ c.base_fee_config.target_base_fee > c.base_fee_config.max_base_fee then
    .error "target_base_fee must be between min_base_fee and max_base_fee"
  else if c.priority_fee_config.min_priority_fee ≥
      c.priority_fee_config.max_priority_fee then
    .error "min_priority_fee must be less than max_priority_fee"
  else if c.congestion_config.congestion_threshold ≤
      c.base_fee_config.target_base_fee then
    .error "congestion_threshold should be higher than target_base_fee"
  else
    .ok ()

/-- A configuration whose target base fee sits at the lower end of the
interval (`target_base_fee = min_base_fee`), violating the strict
`min < target` invariant claimed by the spec. -/
def cfgTargetAtMin : BscFeeOptimizationConfig :=
  { enabled := true
    base_fee_config :=
      { min_base_fee := 100000000
        max_base_fee := 5000000000
        target_base_fee := 100000000
        safety_margin_percent := 10 }
    priority_fee_config :=
      { min_priority_fee := 100000000
        max_priority_fee := 2000000000
        fast_priority_fee := 500000000 }
    congestion_config :=
      { congestion_threshold := 3000000000
        congestion_boost_percent := 50
        assessment_window_blocks := 10 }
    resend_config :=
      { price_bump_multiplier := 2
        time_decay_boost_percent := 15
        max_resend_attempts := 5 } }

/-- The external `TxParamsProvider` gas-price source
(`zksync_node_fee_model::l1_gas_price`), modelled as an immutable snapshot
of the pure numeric reads the oracle performs. -/
structure TxParamsProvider where
  get_base_fee : Nat → Nat
  get_priority_fee : Nat
  get_next_block_minimal_base_fee : Nat
  get_blob_tx_base_fee : Nat → Nat
  get_blob_tx_blob_base_fee : Nat → Nat
  get_blob_tx_priority_fee : Nat
  get_next_block_minimal_blob_base_fee : Nat
  gateway_get_base_fee : Nat → Nat
  get_gateway_price_per_pubdata : Nat → Nat

/-- `BscFeeConfig` from `eth_fees_oracle.rs` (the private config of
`BscGasPriceProvider`). -/
structure BscFeeConfig where
  min_gas_price : Nat
  max_gas_price : Nat
  target_gas_price : Nat
  fast_priority_fee : Nat
  congestion_threshold : Nat
deriving DecidableEq, Repr

/-- `BscFeeConfig::default` from `eth_fees_oracle.rs`. -/
def BscFeeConfig.default : BscFeeConfig :=
  { min_gas_price := 100000000
    max_gas_price := 5000000000
    target_gas_price := 1000000000
    fast_priority_fee := 100000000
    congestion_threshold := 3000000000 }

/-- `BscNetworkStatus` from `eth_fees_oracle.rs`. -/
inductive BscNetworkStatus where
  | Low
  | Normal
  | Congested
deriving DecidableEq, Repr

/-- `BscGasResult` from `eth_fees_oracle.rs`. -/
structure BscGasResult where
  base_fee : Nat
  priority_fee : Nat
  network_status : BscNetworkStatus
  is_optimized : Bool
deriving DecidableEq, Repr

/-- `BscGasPriceProvider` from `eth_fees_oracle.rs`. -/
structure BscGasPriceProvider where
  gas_adjuster : TxParamsProvider
  safety_margin_percent : Nat
  bsc_config : BscFeeConfig

/-- `BscGasPriceProvider::new`: hard-codes a 10% safety margin and the
default BSC fee config. -/
def BscGasPriceProvider.new (gas_adjuster : TxParamsProvider) :
    BscGasPriceProvider :=
  { gas_adjuster, safety_margin_percent := 10,
    bsc_config := BscFeeConfig.default }

/-- `BscGasPriceProvider::assess_network_congestion` from
`eth_fees_oracle.rs`. -/
def BscGasPriceProvider.assess_network_congestion
    (p : BscGasPriceProvider) (current_base_fee : Nat) : BscNetworkStatus :=
  if current_base_fee ≤ p.bsc_config.target_gas_price then .Low
  else if current_base_fee ≤ p.bsc_config.congestion_threshold then .Normal
  else .Congested

/-- `BscGasPriceProvider::get_optimized_gas_price` from
`eth_fees_oracle.rs`: reads the source's base fee at time 0, falls back to
the configured target when it reads zero, selects a (base, priority) pair by
congestion tier, and applies the safety margin only when congested. -/
def BscGasPriceProvider.get_optimized_gas_price
    (p : BscGasPriceProvider) : BscGasResult :=
  let network_base_fee := p.gas_adjuster.get_base_fee 0
  let base_gas_price :=
    if network_base_fee > 0 then network_base_fee
    else p.bsc_config.target_gas_price
  let network_status := p.assess_network_congestion base_gas_price
  let pair : Nat × Nat :=
    match network_status with
    | .Low => (p.bsc_config.min_gas_price, p.bsc_config.fast_priority_fee)
    | .Normal =>
        (p.bsc_config.target_gas_price, p.bsc_config.fast_priority_fee)
    | .Congested =>
        let boosted_fee := wmul base_gas_price 150 / 100
        let capped_fee := min boosted_fee p.bsc_config.max_gas_price
        (capped_fee, wmul p.bsc_config.fast_priority_fee 2)
  let final_base_fee :=
    if network_status = .Congested then
      wmul pair.1 (wadd 100 p.safety_margin_percent) / 100
    else pair.1
  { base_fee := final_base_fee
    priority_fee := pair.2
    network_status := network_status
    is_optimized := true }

/-- A degenerate snapshot whose every read is zero. -/
def zeroSnapshot : TxParamsProvider :=
  { get_base_fee := fun _ => 0
    get_priority_fee := 0
    get_next_block_minimal_base_fee := 0
    get_blob_tx_base_fee := fun _ => 0
    get_blob_tx_blob_base_fee := fun _ => 0
    get_blob_tx_priority_fee := 0
    get_next_block_minimal_blob_base_fee := 0
    gateway_get_base_fee := fun _ => 0
    get_gateway_price_per_pubdata := fun _ => 0 }

/-- `TxHistory` (`zksync_types::eth_sender`): the previous attempt for the
same operation, restricted to the fields the fee oracle reads. -/
structure TxHistory where
  id : Nat
  base_fee_per_gas : Nat
  priority_fee_per_gas : Nat
  blob_base_fee_per_gas : Option Nat
  max_gas_per_pubdata : Option Nat
deriving DecidableEq, Repr

/-- `OperatorType` from `abstract_l1_interface.rs`. -/
inductive OperatorType where
  | NonBlob
  | Blob
  | Gateway
deriving DecidableEq, Repr

/-- `EthFees` from `eth_fees_oracle.rs` (the fee quote). -/
structure EthFees where
  base_fee_per_gas : Nat
  priority_fee_per_gas : Nat
  blob_base_fee_per_gas : Option Nat
  max_gas_per_pubdata_price : Option Nat
deriving DecidableEq, Repr

/-- The `EthSenderError` values `calculate_fees` can return:
`ExceedMaxBaseFee`, and the enriched client error produced by
`verify_base_fee_not_too_low_on_resend` (identified here by the fee-type
string of its "... is too low" message). -/
inductive EthSenderError where
  | ExceedMaxBaseFee
  | FeeTooLow (fee_type : String)
deriving DecidableEq, Repr

/-- Outcome of a fee calculation: a successful quote, a returned error, or
a Rust `panic!` (which never returns to the caller). -/
inductive FeeResult where
  | ok (fees : EthFees)
  | err (e : EthSenderError)
  | fatal (msg : String)
deriving DecidableEq, Repr

/-- `GasAdjusterFeesOracle` from `eth_fees_oracle.rs`. -/
structure GasAdjusterFeesOracle where
  gas_adjuster : TxParamsProvider
  max_acceptable_priority_fee_in_gwei : Nat
  time_in_mempool_in_l1_blocks_cap : Nat
  max_acceptable_base_fee_in_wei : Nat
  bsc_provider : BscGasPriceProvider

/-- `GasAdjusterFeesOracle::assert_fee_is_not_zero` from
`eth_fees_oracle.rs`: a zero fee read panics on the Ethereum class
(modelled as `.error msg`, the diverging branch), is replaced by the
BSC-optimized value on the Bsc class, and by a conservative constant on
Other. -/
def GasAdjusterFeesOracle.assert_fee_is_not_zero
    (o : GasAdjusterFeesOracle) (env : Option String)
    (value : Nat) (fee_type : String) : Except String Nat :=
  if value = 0 then
    match detect_network_type_from_env env with
    | .Ethereum =>
        .error "L1 RPC incorrectly reported fee prices"
    | .Bsc =>
        if fee_type = "base" then
          .ok (o.bsc_provider.get_optimized_gas_price).base_fee
        else if fee_type = "priority" then
          .ok (o.bsc_provider.get_optimized_gas_price).priority_fee
        else if fee_type = "blob" then
          .ok 100000000
        else
          .ok 1000000000
    | .Other =>
        if fee_type = "base" then .ok 5000000000
        else if fee_type = "priority" then .ok 1000000000
        else if fee_type = "blob" then .ok 1000000000
        else .ok 5000000000
  else
    .ok value

/-- `GasAdjusterFeesOracle::check_priority_fee` from `eth_fees_oracle.rs`:
a priority fee above the ceiling panics on the Ethereum class (modelled as
`.error msg`), is replaced by `min(bsc_optimized_priority, ceiling)` on the
Bsc class, and by `min(ceiling, 2 Gwei)` on Other. -/
def GasAdjusterFeesOracle.check_priority_fee
    (o : GasAdjusterFeesOracle) (env : Option String)
    (priority_fee_per_gas : Nat) : Except String Nat :=
  if priority_fee_per_gas > o.max_acceptable_priority_fee_in_gwei then
    match detect_network_type_from_env env with
    | .Ethereum =>
        .error "Extremely high value of priority_fee_per_gas is suggested"
    | .Bsc =>
        .ok (min (o.bsc_provider.get_optimized_gas_price).priority_fee
          o.max_acceptable_priority_fee_in_gwei)
    | .Other =>
        .ok (min o.max_acceptable_priority_fee_in_gwei 2000000000)
  else
    .ok priority_fee_per_gas

/-- `GasAdjusterFeesOracle::is_base_fee_exceeding_limit` from
`eth_fees_oracle.rs`. -/
def GasAdjusterFeesOracle.is_base_fee_exceeding_limit
    (o : GasAdjusterFeesOracle) (value : Nat) : Bool :=
  value > o.max_acceptable_base_fee_in_wei

/-- `GasAdjusterFeesOracle::verify_base_fee_not_too_low_on_resend` from
`eth_fees_oracle.rs`: fails unless the candidate fee reaches both the next
block's minimal fee and `ceil(previous_fee * multiplier)` (all compared in
`f64`, modelled exactly over `ℚ`).  The u64-to-f64 casts of the source
round above `2^53`, so the real comparison can accept candidates slightly
below the exact threshold there; theorems whose conclusions rest on this
comparison for an unbounded previous fee therefore bound it by `2^52`,
the range in which the `ℚ` model and the IEEE computation agree for every
candidate. -/
def verify_base_fee_not_too_low_on_resend
    (tx_id : Nat) (previous_fee fee_to_use next_block_minimal_fee : Nat)
    (min_price_bump_multiplier : ℚ) (fee_type : String) :
    Except EthSenderError Unit :=
  if (fee_to_use : ℚ) < (next_block_minimal_fee : ℚ)
      ∨ (fee_to_use : ℚ) <
          ((⌈(previous_fee : ℚ) * min_price_bump_multiplier⌉ : ℤ) : ℚ) then
    .error (.FeeTooLow fee_type)
  else
    .ok ()

/-- An oracle over the all-zero snapshot with the constructor-installed BSC
provider. -/
def oracleZero : GasAdjusterFeesOracle :=
  { gas_adjuster := zeroSnapshot
    max_acceptable_priority_fee_in_gwei := 100000000000
    time_in_mempool_in_l1_blocks_cap := 100
    max_acceptable_base_fee_in_wei := 200000000000
    bsc_provider := BscGasPriceProvider.new zeroSnapshot }

/-- Shared tail of the blob path: run `check_priority_fee` and assemble the
quote (a panic in the check propagates). -/
def GasAdjusterFeesOracle.finish_blob (o : GasAdjusterFeesOracle)
    (env : Option String) (base blob prio : Nat) : FeeResult :=
  match o.check_priority_fee env prio with
  | .error m => .fatal m
  | .ok p2 => .ok ⟨base, p2, some blob, none⟩

/-- `GasAdjusterFeesOracle::calculate_fees_with_blob_sidecar` from
`eth_fees_oracle.rs`: blob-carrying Ethereum-class path with multiplier
2.00; on resend, if exactly one of the two not-too-low checks fails, that
component is replaced by `previous * 2` (wrapping u64 multiply); if both
fail the blob error is returned. -/
def GasAdjusterFeesOracle.calculate_fees_with_blob_sidecar
    (o : GasAdjusterFeesOracle) (env : Option String)
    (previous_sent_tx : Option TxHistory)
    (time_in_mempool_in_l1_blocks : Nat) : FeeResult :=
  let capped := min time_in_mempool_in_l1_blocks
    o.time_in_mempool_in_l1_blocks_cap
  match o.assert_fee_is_not_zero env
      (o.gas_adjuster.get_blob_tx_base_fee capped) "base" with
  | .error m => .fatal m
  | .ok base_fee_per_gas =>
    if o.is_base_fee_exceeding_limit base_fee_per_gas then
      .err .ExceedMaxBaseFee
    else
      match o.assert_fee_is_not_zero env
          (o.gas_adjuster.get_blob_tx_blob_base_fee capped) "blob" with
      | .error m => .fatal m
      | .ok blob_base_fee_per_gas =>
        match previous_sent_tx with
        | none =>
          o.finish_blob env base_fee_per_gas blob_base_fee_per_gas
            o.gas_adjuster.get_blob_tx_priority_fee
        | some prev =>
          let blob_result := verify_base_fee_not_too_low_on_resend prev.id
            (prev.blob_base_fee_per_gas.getD 0) blob_base_fee_per_gas
            o.gas_adjuster.get_next_block_minimal_blob_base_fee 2
            "blob_base_fee_per_gas"
          let base_result := verify_base_fee_not_too_low_on_resend prev.id
            prev.base_fee_per_gas base_fee_per_gas
            o.gas_adjuster.get_next_block_minimal_base_fee 2
            "base_fee_per_gas"
          let prio := max o.gas_adjuster.get_blob_tx_priority_fee
            (wmul prev.priority_fee_per_gas 2)
          match blob_result, base_result with
          | .ok _, .ok _ =>
            o.finish_blob env base_fee_per_gas blob_base_fee_per_gas prio
          | .error e, .error _ => .err e
          | .ok _, .error _ =>
            o.finish_blob env (wmul prev.base_fee_per_gas 2)
              blob_base_fee_per_gas prio
          | .error _, .ok _ =>
            match prev.blob_base_fee_per_gas with
            | none => .fatal "called Option.unwrap on a None value"
            | some b =>
              o.finish_blob env base_fee_per_gas (wmul b 2) prio

/-- Shared tail of the non-blob path: run `check_priority_fee` and assemble
the quote. -/
def GasAdjusterFeesOracle.finish_no_blob (o : GasAdjusterFeesOracle)
    (env : Option String) (base prio : Nat) : FeeResult :=
  match o.check_priority_fee env prio with
  | .error m => .fatal m
  | .ok p2 => .ok ⟨base, p2, none, none⟩

/-- `GasAdjusterFeesOracle::calculate_fees_no_blob_sidecar` from
`eth_fees_oracle.rs`: non-blob Ethereum-class path with multiplier 1.10; a
failed resend check is propagated as the error (`?`), never bumped. -/
def GasAdjusterFeesOracle.calculate_fees_no_blob_sidecar
    (o : GasAdjusterFeesOracle) (env : Option String)
    (previous_sent_tx : Option TxHistory)
    (time_in_mempool_in_l1_blocks : Nat) : FeeResult :=
  let capped := min time_in_mempool_in_l1_blocks
    o.time_in_mempool_in_l1_blocks_cap
  match o.assert_fee_is_not_zero env
      (o.gas_adjuster.get_base_fee capped) "base" with
  | .error m => .fatal m
  | .ok base_fee_per_gas =>
    if o.is_base_fee_exceeding_limit base_fee_per_gas then
      .err .ExceedMaxBaseFee
    else
      match previous_sent_tx with
      | none =>
        o.finish_no_blob env base_fee_per_gas
          o.gas_adjuster.get_priority_fee
      | some prev =>
        match verify_base_fee_not_too_low_on_resend prev.id
            prev.base_fee_per_gas base_fee_per_gas
            o.gas_adjuster.get_next_block_minimal_base_fee (11 / 10)
            "base_fee_per_gas" with
        | .error e => .err e
        | .ok _ =>
          o.finish_no_blob env base_fee_per_gas
            (max o.gas_adjuster.get_priority_fee
              (rat_ceil_to_u64
                ((prev.priority_fee_per_gas : ℚ) * (11 / 10))))

/-- `GasAdjusterFeesOracle::calculate_fees_for_gateway_tx` from
`eth_fees_oracle.rs`: gateway path with multiplier 1.10, priority fee 0,
carrying a pubdata price bumped by 1.10 on resend when present. -/
def GasAdjusterFeesOracle.calculate_fees_for_gateway_tx
    (o : GasAdjusterFeesOracle) (env : Option String)
    (previous_sent_tx : Option TxHistory)
    (time_in_mempool_in_l1_blocks : Nat) : FeeResult :=
  let capped := min time_in_mempool_in_l1_blocks
    o.time_in_mempool_in_l1_blocks_cap
  match o.assert_fee_is_not_zero env
      (o.gas_adjuster.gateway_get_base_fee capped) "base" with
  | .error m => .fatal m
  | .ok base_fee_per_gas =>
    if o.is_base_fee_exceeding_limit base_fee_per_gas then
      .err .ExceedMaxBaseFee
    else
      let gas_per_pubdata := o.gas_adjuster.get_gateway_price_per_pubdata
        capped
      match previous_sent_tx with
      | none => .ok ⟨base_fee_per_gas, 0, none, some gas_per_pubdata⟩
      | some prev =>
        match verify_base_fee_not_too_low_on_resend prev.id
            prev.base_fee_per_gas base_fee_per_gas
            o.gas_adjuster.get_next_block_minimal_base_fee (11 / 10)
            "base_fee_per_gas" with
        | .error e => .err e
        | .ok _ =>
          let gas_per_pubdata2 :=
            match prev.max_gas_per_pubdata with
            | some prev_gpp =>
              max gas_per_pubdata
                (rat_ceil_to_u64 ((prev_gpp : ℚ) * (11 / 10)))
            | none => gas_per_pubdata
          .ok ⟨base_fee_per_gas, 0, none, some gas_per_pubdata2⟩

/-- The resend-bumped (pre-decay) fee pair of
`calculate_fees_bsc_optimized`: the BSC-optimized pair, each component
maxed with `previous * 2` (wrapping) when a previous attempt exists. -/
def GasAdjusterFeesOracle.bsc_fees_after_resend
    (o : GasAdjusterFeesOracle) (previous_sent_tx : Option TxHistory) :
    Nat × Nat :=
  let r := o.bsc_provider.get_optimized_gas_price
  match previous_sent_tx with
  | some prev =>
    (max r.base_fee (wmul prev.base_fee_per_gas 2),
     max r.priority_fee (wmul prev.priority_fee_per_gas 2))
  | none => (r.base_fee, r.priority_fee)

/-- The time-in-mempool decay of `calculate_bsc_optimized_fees`: for a
positive block count `t`, both components are multiplied by
`1 + t * 0.15` in `f64` and truncated back to u64. -/
def bsc_time_decayed (pair : Nat × Nat) (t : Nat) : Nat × Nat :=
  if t > 0 then
    let time_multiplier : ℚ := 1 + (t : ℚ) * (15 / 100)
    (rat_to_u64 ((pair.1 : ℚ) * time_multiplier),
     rat_to_u64 ((pair.2 : ℚ) * time_multiplier))
  else pair

/-- `GasAdjusterFeesOracle::calculate_bsc_optimized_fees` from
`eth_fees_oracle.rs`: BSC-optimized pair, resend bump, time decay, base-fee
ceiling gate, priority-fee check. -/
def GasAdjusterFeesOracle.calculate_bsc_optimized_fees
    (o : GasAdjusterFeesOracle) (env : Option String)
    (previous_sent_tx : Option TxHistory)
    (time_in_mempool_in_l1_blocks : Nat) : FeeResult :=
  let pair := bsc_time_decayed (o.bsc_fees_after_resend previous_sent_tx)
    time_in_mempool_in_l1_blocks
  if o.is_base_fee_exceeding_limit pair.1 then
    .err .ExceedMaxBaseFee
  else
    match o.check_priority_fee env pair.2 with
    | .error m => .fatal m
    | .ok p2 => .ok ⟨pair.1, p2, none, none⟩

/-- `<GasAdjusterFeesOracle as EthFeesOracle>::calculate_fees` from
`eth_fees_oracle.rs`: dispatch on the env-detected network class and the
operator kind; on the Bsc class, NonBlob and Blob use the BSC-optimized
path, and Gateway runs the gateway path and then replaces the base fee by
the BSC-optimized value (after the gateway path's ceiling check). -/
def GasAdjusterFeesOracle.calculate_fees (o : GasAdjusterFeesOracle)
    (env : Option String) (previous_sent_tx : Option TxHistory)
    (time_in_mempool_in_l1_blocks : Nat) (operator_type : OperatorType) :
    FeeResult :=
  let network_type := detect_network_type_from_env env
  if network_type = .Bsc then
    match operator_type with
    | .NonBlob | .Blob =>
      o.calculate_bsc_optimized_fees env previous_sent_tx
        time_in_mempool_in_l1_blocks
    | .Gateway =>
      match o.calculate_fees_for_gateway_tx env previous_sent_tx
          time_in_mempool_in_l1_blocks with
      | .ok result =>
        .ok { result with
          base_fee_per_gas :=
            (o.bsc_provider.get_optimized_gas_price).base_fee }
      | r => r
  else
    match operator_type with
    | .NonBlob =>
      o.calculate_fees_no_blob_sidecar env previous_sent_tx
        time_in_mempool_in_l1_blocks
    | .Blob =>
      o.calculate_fees_with_blob_sidecar env previous_sent_tx
        time_in_mempool_in_l1_blocks
    | .Gateway =>
      o.calculate_fees_for_gateway_tx env previous_sent_tx
        time_in_mempool_in_l1_blocks

/-- `NetworkAwareFeesOracle` from `network_aware/fees_oracle.rs`. -/
structure NetworkAwareFeesOracle where
  inner : GasAdjusterFeesOracle
  network_type : NetworkType
  chain_id : Nat

/-- `BSC_DEFAULT_GAS_PRICE` from `network_aware/fees_oracle.rs`. -/
def BSC_DEFAULT_GAS_PRICE : Nat := 20000000000

/-- `BSC_DEFAULT_PRIORITY_FEE` from `network_aware/fees_oracle.rs`. -/
def BSC_DEFAULT_PRIORITY_FEE : Nat := 1000000000

/-- The fee pair computed by `NetworkAwareFeesOracle::calculate_bsc_fees`
(`network_aware/fees_oracle.rs`) before its ceiling checks: constant
default pair, unconditional `previous * 2` resend bump (wrapping),
10%-per-block time decay. -/
def NetworkAwareFeesOracle.bsc_pair (previous_sent_tx : Option TxHistory)
    (time_in_mempool_in_l1_blocks : Nat) : Nat × Nat :=
  let pair0 : Nat × Nat := (BSC_DEFAULT_GAS_PRICE, BSC_DEFAULT_PRIORITY_FEE)
  let pair1 :=
    match previous_sent_tx with
    | some prev =>
      (max pair0.1 (wmul prev.base_fee_per_gas 2),
       max pair0.2 (wmul prev.priority_fee_per_gas 2))
    | none => pair0
  if time_in_mempool_in_l1_blocks > 0 then
    let time_multiplier : ℚ :=
      1 + (time_in_mempool_in_l1_blocks : ℚ) * (1 / 10)
    (rat_to_u64 ((pair1.1 : ℚ) * time_multiplier),
     rat_to_u64 ((pair1.2 : ℚ) * time_multiplier))
  else pair1

/-- `NetworkAwareFeesOracle::calculate_bsc_fees` from
`network_aware/fees_oracle.rs`: the bumped and decayed default pair, then
a fatal base-fee ceiling and a clamped priority-fee ceiling. -/
def NetworkAwareFeesOracle.calculate_bsc_fees
    (s : NetworkAwareFeesOracle) (previous_sent_tx : Option TxHistory)
    (time_in_mempool_in_l1_blocks : Nat) (operator_type : OperatorType) :
    FeeResult :=
  let pair2 := NetworkAwareFeesOracle.bsc_pair previous_sent_tx
    time_in_mempool_in_l1_blocks
  if pair2.1 > s.inner.max_acceptable_base_fee_in_wei then
    .err .ExceedMaxBaseFee
  else
    let prio :=
      if pair2.2 > s.inner.max_acceptable_priority_fee_in_gwei then
        s.inner.max_acceptable_priority_fee_in_gwei
      else pair2.2
    .ok ⟨pair2.1, prio, none, none⟩

/-- `NetworkAwareFeesOracle::calculate_legacy_fees` from
`network_aware/fees_oracle.rs`: delegates to the BSC strategy. -/
def NetworkAwareFeesOracle.calculate_legacy_fees
    (s : NetworkAwareFeesOracle) (previous_sent_tx : Option TxHistory)
    (time_in_mempool_in_l1_blocks : Nat) (operator_type : OperatorType) :
    FeeResult :=
  s.calculate_bsc_fees previous_sent_tx time_in_mempool_in_l1_blocks
    operator_type

/-- `<NetworkAwareFeesOracle as EthFeesOracle>::calculate_fees` from
`network_aware/fees_oracle.rs`: dispatch on the construction-time network
type. -/
def NetworkAwareFeesOracle.calculate_fees (s : NetworkAwareFeesOracle)
    (env : Option String) (previous_sent_tx : Option TxHistory)
    (time_in_mempool_in_l1_blocks : Nat) (operator_type : OperatorType) :
    FeeResult :=
  match s.network_type with
  | .Ethereum =>
    s.inner.calculate_fees env previous_sent_tx
      time_in_mempool_in_l1_blocks operator_type
  | .Bsc =>
    s.calculate_bsc_fees previous_sent_tx time_in_mempool_in_l1_blocks
      operator_type
  | .Other =>
    s.calculate_legacy_fees previous_sent_tx time_in_mempool_in_l1_blocks
      operator_type

/-- A live snapshot with small non-zero reads. -/
def liveSnapshot : TxParamsProvider :=
  { get_base_fee := fun _ => 100
    get_priority_fee := 10
    get_next_block_minimal_base_fee := 0
    get_blob_tx_base_fee := fun _ => 100
    get_blob_tx_blob_base_fee := fun _ => 50
    get_blob_tx_priority_fee := 10
    get_next_block_minimal_blob_base_fee := 0
    gateway_get_base_fee := fun _ => 100
    get_gateway_price_per_pubdata := fun _ => 1000
  }

/-- An oracle over `liveSnapshot`. -/
def oracleLive : GasAdjusterFeesOracle :=
  { gas_adjuster := liveSnapshot
    max_acceptable_priority_fee_in_gwei := 100000000000
    time_in_mempool_in_l1_blocks_cap := 100
    max_acceptable_base_fee_in_wei := 200000000000
    bsc_provider := BscGasPriceProvider.new liveSnapshot }

/-- A snapshot on which the BSC-optimized base fee is large (the source
reads 4 Gwei, which classifies as Congested) while the gateway base-fee
read is tiny. -/
def snapshotBscCongested : TxParamsProvider :=
  { get_base_fee := fun _ => 4000000000
    get_priority_fee := 10
    get_next_block_minimal_base_fee := 0
    get_blob_tx_base_fee := fun _ => 50
    get_blob_tx_blob_base_fee := fun _ => 50
    get_blob_tx_priority_fee := 10
    get_next_block_minimal_blob_base_fee := 0
    gateway_get_base_fee := fun _ => 50
    get_gateway_price_per_pubdata := fun _ => 1000 }

/-- An oracle with a very low base-fee ceiling (100 wei) over
`snapshotBscCongested`. -/
def oracleLowCeiling : GasAdjusterFeesOracle :=
  { gas_adjuster := snapshotBscCongested
    max_acceptable_priority_fee_in_gwei := 1000000000
    time_in_mempool_in_l1_blocks_cap := 100
    max_acceptable_base_fee_in_wei := 100
    bsc_provider := BscGasPriceProvider.new snapshotBscCongested }

/-- An oracle whose fresh base-fee read (300 wei) exceeds its base-fee
ceiling (100 wei). -/
def oracleHighBase : GasAdjusterFeesOracle :=
  { gas_adjuster :=
      { get_base_fee := fun _ => 300
        get_priority_fee := 10
        get_next_block_minimal_base_fee := 0
        get_blob_tx_base_fee := fun _ => 300
        get_blob_tx_blob_base_fee := fun _ => 50
        get_blob_tx_priority_fee := 10
        get_next_block_minimal_blob_base_fee := 0
        gateway_get_base_fee := fun _ => 300
        get_gateway_price_per_pubdata := fun _ => 1000 }
    max_acceptable_priority_fee_in_gwei := 1000000000
    time_in_mempool_in_l1_blocks_cap := 100
    max_acceptable_base_fee_in_wei := 100
    bsc_provider := BscGasPriceProvider.new zeroSnapshot }

/-- A snapshot whose base-fee read is 2 Gwei (a Normal-tier BSC reading). -/
def snapshotBscNormal : TxParamsProvider :=
  { get_base_fee := fun _ => 2000000000
    get_priority_fee := 10
    get_next_block_minimal_base_fee := 0
    get_blob_tx_base_fee := fun _ => 100
    get_blob_tx_blob_base_fee := fun _ => 50
    get_blob_tx_priority_fee := 10
    get_next_block_minimal_blob_base_fee := 0
    gateway_get_base_fee := fun _ => 100
    get_gateway_price_per_pubdata := fun _ => 1000 }

/-- An oracle over `snapshotBscNormal` with roomy ceilings. -/
def oracleBscNormal : GasAdjusterFeesOracle :=
  { gas_adjuster := snapshotBscNormal
    max_acceptable_priority_fee_in_gwei := 100000000000
    time_in_mempool_in_l1_blocks_cap := 100
    max_acceptable_base_fee_in_wei := 200000000000
    bsc_provider := BscGasPriceProvider.new snapshotBscNormal }

/-- A previous attempt whose base fee equals the fresh read of
`liveSnapshot` (so the 1.10x resend check fails). -/
def prevSmall : TxHistory :=
  { id := 7, base_fee_per_gas := 100, priority_fee_per_gas := 10
    blob_base_fee_per_gas := some 50, max_gas_per_pubdata := none }

/-- A snapshot for exercising the blob path's resend branches. -/
def snapshotBlobMix : TxParamsProvider :=
  { get_base_fee := fun _ => 100
    get_priority_fee := 10
    get_next_block_minimal_base_fee := 0
    get_blob_tx_base_fee := fun _ => 100
    get_blob_tx_blob_base_fee := fun _ => 50
    get_blob_tx_priority_fee := 10
    get_next_block_minimal_blob_base_fee := 0
    gateway_get_base_fee := fun _ => 100
    get_gateway_price_per_pubdata := fun _ => 1000 }

/-- An oracle over `snapshotBlobMix`. -/
def oracleBlobMix : GasAdjusterFeesOracle :=
  { gas_adjuster := snapshotBlobMix
    max_acceptable_priority_fee_in_gwei := 1000000000
    time_in_mempool_in_l1_blocks_cap := 100
    max_acceptable_base_fee_in_wei := 1000000000000
    bsc_provider := BscGasPriceProvider.new snapshotBlobMix }

/-- Previous attempt for which only the base-fee resend check fails. -/
def prevBaseLow : TxHistory :=
  { id := 3, base_fee_per_gas := 100, priority_fee_per_gas := 10
    blob_base_fee_per_gas := some 10, max_gas_per_pubdata := none }

/-- Previous attempt for which only the blob-fee resend check fails. -/
def prevBlobLow : TxHistory :=
  { id := 4, base_fee_per_gas := 10, priority_fee_per_gas := 10
    blob_base_fee_per_gas := some 50, max_gas_per_pubdata := none }

/-- Previous attempt for which both resend checks fail. -/
def prevBothLow : TxHistory :=
  { id := 5, base_fee_per_gas := 100, priority_fee_per_gas := 10
    blob_base_fee_per_gas := some 50, max_gas_per_pubdata := none }

/-- Previous attempt for which both resend checks pass exactly. -/
def prevBothPass : TxHistory :=
  { id := 6, base_fee_per_gas := 50, priority_fee_per_gas := 5
    blob_base_fee_per_gas := some 25, max_gas_per_pubdata := none }

/-- A snapshot whose blob-path base-fee read is `2^63`. -/
def snapshotOverflow : TxParamsProvider :=
  { get_base_fee := fun _ => 1
    get_priority_fee := 0
    get_next_block_minimal_base_fee := 0
    get_blob_tx_base_fee := fun _ => 9223372036854775808
    get_blob_tx_blob_base_fee := fun _ => 2
    get_blob_tx_priority_fee := 0
    get_next_block_minimal_blob_base_fee := 0
    gateway_get_base_fee := fun _ => 1
    get_gateway_price_per_pubdata := fun _ => 1 }

/-- An oracle over `snapshotOverflow` with the ceiling at `2^64 - 1`. -/
def oracleOverflow : GasAdjusterFeesOracle :=
  { gas_adjuster := snapshotOverflow
    max_acceptable_priority_fee_in_gwei := 1000000000
    time_in_mempool_in_l1_blocks_cap := 100
    max_acceptable_base_fee_in_wei := 18446744073709551615
    bsc_provider := BscGasPriceProvider.new snapshotOverflow }

/-- A previous attempt with base fee `2^63` (both fees positive). -/
def prevOverflow : TxHistory :=
  { id := 1, base_fee_per_gas := 9223372036854775808
    priority_fee_per_gas := 0
    blob_base_fee_per_gas := some 1, max_gas_per_pubdata := none }

/-! ## Theorems -/

/-- C6: for every u64 chain ID, `detect_network_type` returns exactly one of
{Ethereum, Bsc, Other} (it is a total function into that enum), returning
Ethereum exactly for 1, 5 and 11155111, Bsc exactly for 56 and 97, and Other
for every other chain ID. -/
theorem detect_network_type_classification (id : Nat) :
    (detect_network_type id = .Ethereum ↔ (id = 1 ∨ id = 5 ∨ id = 11155111)) ∧
    (detect_network_type id = .Bsc ↔ (id = 56 ∨ id = 97)) ∧
    (detect_network_type id = .Other ↔
      ¬(id = 1 ∨ id = 5 ∨ id = 11155111 ∨ id = 56 ∨ id = 97)) := by
  unfold detect_network_type
  split_ifs with h1 h2 <;> simp_all <;> omega

/-- C10: when the `L1_CHAIN_ID` environment variable is unset, or set to a
string that does not parse as a u64, `detect_network_type_from_env` returns
`Ethereum` (the strict fatal-on-zero-fee class), not `Other`. -/
theorem env_detection_defaults_ethereum :
    detect_network_type_from_env none = .Ethereum ∧
    (∀ s : String, parse_u64 s = none →
      detect_network_type_from_env (some s) = .Ethereum) := by
  refine ⟨rfl, fun s hs => ?_⟩
  simp only [detect_network_type_from_env, hs]

/-- Witness for C10 at a concrete non-numeric string. -/
theorem env_detection_defaults_ethereum_witness :
    detect_network_type_from_env (some "not-a-number") = .Ethereum :=
  env_detection_defaults_ethereum.2 "not-a-number" (by decide)

/-- Counterexample for C7: a configuration with
`target_base_fee = min_base_fee` is outside the strict interval
`min_base_fee < target_base_fee < max_base_fee`, yet `validate` accepts
it — the source only rejects `target < min` or `target > max`. -/
theorem validate_nonstrict_target_cex :
    cfgTargetAtMin.validate = .ok () ∧
    cfgTargetAtMin.base_fee_config.target_base_fee =
      cfgTargetAtMin.base_fee_config.min_base_fee ∧
    ¬(cfgTargetAtMin.base_fee_config.min_base_fee <
        cfgTargetAtMin.base_fee_config.target_base_fee) := by
  refine ⟨rfl, rfl, by decide⟩

/-- C7 (amended): `validate` returns an error exactly when
`min_base_fee ≥ max_base_fee`, or `target_base_fee` lies outside the
NON-strict interval `min_base_fee ≤ target_base_fee ≤ max_base_fee`, or
`min_priority_fee ≥ max_priority_fee`, or
`congestion_threshold ≤ target_base_fee`; it accepts every configuration
satisfying all four conditions.  (These checks run at configuration-load
time, in `validate`, not inside any fee-computation function.) -/
theorem validate_characterization (c : BscFeeOptimizationConfig) :
    c.validate = .ok () ↔
      (c.base_fee_config.min_base_fee < c.base_fee_config.max_base_fee ∧
       c.base_fee_config.min_base_fee ≤ c.base_fee_config.target_base_fee ∧
       c.base_fee_config.target_base_fee ≤ c.base_fee_config.max_base_fee ∧
       c.priority_fee_config.min_priority_fee <
         c.priority_fee_config.max_priority_fee ∧
       c.base_fee_config.target_base_fee <
         c.congestion_config.congestion_threshold) := by
  unfold BscFeeOptimizationConfig.validate
  split_ifs with h1 h2 h3 h4 <;>
    simp_all <;> omega

/-- C9: the BSC congestion classifier returns Low when the observed base
fee is at most the configured target, Normal when it is above the target
but at most the congestion threshold, and Congested when it is above the
threshold (stated under the configured invariant target < threshold). -/
theorem congestion_tiering (p : BscGasPriceProvider) (f : Nat)
    (h : p.bsc_config.target_gas_price < p.bsc_config.congestion_threshold) :
    (f ≤ p.bsc_config.target_gas_price →
      p.assess_network_congestion f = .Low) ∧
    (p.bsc_config.target_gas_price < f →
      f ≤ p.bsc_config.congestion_threshold →
      p.assess_network_congestion f = .Normal) ∧
    (p.bsc_config.congestion_threshold < f →
      p.assess_network_congestion f = .Congested) := by
  unfold BscGasPriceProvider.assess_network_congestion
  refine ⟨fun h1 => by simp [h1], fun h1 h2 => ?_, fun h1 => ?_⟩
  · rw [if_neg (by omega), if_pos h2]
  · rw [if_neg (by omega), if_neg (by omega)]

/-- Witness for C9 at the spec's example: target 1 Gwei, threshold 3 Gwei,
observed base fee 2 Gwei classifies as Normal. -/
theorem congestion_tiering_witness :
    (BscGasPriceProvider.new zeroSnapshot).assess_network_congestion
      2000000000 = .Normal :=
  (congestion_tiering (BscGasPriceProvider.new zeroSnapshot) 2000000000
      (by decide)).2.1 (by decide) (by decide)

/-- C5: for the same call site (`assert_fee_is_not_zero`, fee type
"base") and the same oracle, a zero base-fee reading from the price source
is fatal (the call panics, returning no value) under the Ethereum class,
and under the Bsc class returns the BSC-optimized base fee, a positive
value computed from the configured target when the source reads zero
(stated for the hard-coded config installed by `BscGasPriceProvider::new`).
-/
theorem zero_fee_divergence (o : GasAdjusterFeesOracle)
    (envE envB : Option String)
    (hE : detect_network_type_from_env envE = .Ethereum)
    (hB : detect_network_type_from_env envB = .Bsc)
    (hcfg : o.bsc_provider.bsc_config = BscFeeConfig.default)
    (hzero : o.bsc_provider.gas_adjuster.get_base_fee 0 = 0) :
    o.assert_fee_is_not_zero envE 0 "base" =
      .error "L1 RPC incorrectly reported fee prices" ∧
    o.assert_fee_is_not_zero envB 0 "base" =
      .ok (o.bsc_provider.get_optimized_gas_price).base_fee ∧
    (o.bsc_provider.get_optimized_gas_price).base_fee =
      BscFeeConfig.default.min_gas_price ∧
    0 < (o.bsc_provider.get_optimized_gas_price).base_fee := by
  have hopt : o.bsc_provider.get_optimized_gas_price =
      { base_fee := BscFeeConfig.default.min_gas_price
        priority_fee := BscFeeConfig.default.fast_priority_fee
        network_status := .Low
        is_optimized := true } := by
    unfold BscGasPriceProvider.get_optimized_gas_price
      BscGasPriceProvider.assess_network_congestion
    simp [hzero, hcfg]
  refine ⟨?_, ?_, ?_, ?_⟩
  · unfold GasAdjusterFeesOracle.assert_fee_is_not_zero
    simp [hE]
  · unfold GasAdjusterFeesOracle.assert_fee_is_not_zero
    simp [hB]
  · rw [hopt]
  · rw [hopt]; decide

/-- Witness for C5: chain id 1 (Ethereum) panics on a zero base fee, chain
id 56 (Bsc) substitutes the positive BSC-optimized value. -/
theorem zero_fee_divergence_witness :
    oracleZero.assert_fee_is_not_zero (some "1") 0 "base" =
      .error "L1 RPC incorrectly reported fee prices" ∧
    oracleZero.assert_fee_is_not_zero (some "56") 0 "base" =
      .ok (oracleZero.bsc_provider.get_optimized_gas_price).base_fee ∧
    (oracleZero.bsc_provider.get_optimized_gas_price).base_fee =
      BscFeeConfig.default.min_gas_price ∧
    0 < (oracleZero.bsc_provider.get_optimized_gas_price).base_fee :=
  zero_fee_divergence oracleZero (some "1") (some "56")
    (by decide) (by decide) rfl rfl

/-- Helper: a successful `check_priority_fee` never exceeds the configured
priority-fee ceiling. -/
theorem check_priority_fee_ok_le (o : GasAdjusterFeesOracle)
    (env : Option String) (pr v : Nat)
    (h : o.check_priority_fee env pr = .ok v) :
    v ≤ o.max_acceptable_priority_fee_in_gwei := by
  unfold GasAdjusterFeesOracle.check_priority_fee at h
  split_ifs at h with hgt
  · cases hnt : detect_network_type_from_env env <;> rw [hnt] at h <;>
      simp_all <;> omega
  · cases h
    omega

/-- Helper: shape of a successful `finish_blob`. -/
theorem finish_blob_ok (o : GasAdjusterFeesOracle) (env : Option String)
    (base blob prio : Nat) (fees : EthFees)
    (h : o.finish_blob env base blob prio = .ok fees) :
    ∃ p2, o.check_priority_fee env prio = .ok p2 ∧
      fees = ⟨base, p2, some blob, none⟩ := by
  unfold GasAdjusterFeesOracle.finish_blob at h
  split at h <;> simp_all

/-- Helper: shape of a successful `finish_no_blob`. -/
theorem finish_no_blob_ok (o : GasAdjusterFeesOracle) (env : Option String)
    (base prio : Nat) (fees : EthFees)
    (h : o.finish_no_blob env base prio = .ok fees) :
    ∃ p2, o.check_priority_fee env prio = .ok p2 ∧
      fees = ⟨base, p2, none, none⟩ := by
  unfold GasAdjusterFeesOracle.finish_no_blob at h
  split at h <;> simp_all

/-- Helper: a successful blob-path quote's priority fee came out of
`check_priority_fee`. -/
theorem blob_sidecar_ok_prio (o : GasAdjusterFeesOracle)
    (env : Option String) (prev : Option TxHistory) (t : Nat)
    (fees : EthFees)
    (h : o.calculate_fees_with_blob_sidecar env prev t = .ok fees) :
    ∃ pr, o.check_priority_fee env pr = .ok fees.priority_fee_per_gas := by
  simp only [GasAdjusterFeesOracle.calculate_fees_with_blob_sidecar] at h
  repeat' split at h
  all_goals
    first
    | (simp at h; done)
    | (obtain ⟨p2, hchk, rfl⟩ := finish_blob_ok _ _ _ _ _ _ h
       exact ⟨_, hchk⟩)

/-- Helper: facts about a successful non-blob quote: its base fee respects
the ceiling and its priority fee came out of `check_priority_fee`. -/
theorem no_blob_ok_facts (o : GasAdjusterFeesOracle)
    (env : Option String) (prev : Option TxHistory) (t : Nat)
    (fees : EthFees)
    (h : o.calculate_fees_no_blob_sidecar env prev t = .ok fees) :
    fees.base_fee_per_gas ≤ o.max_acceptable_base_fee_in_wei ∧
    ∃ pr, o.check_priority_fee env pr = .ok fees.priority_fee_per_gas := by
  simp only [GasAdjusterFeesOracle.calculate_fees_no_blob_sidecar] at h
  cases hA : o.assert_fee_is_not_zero env
      (o.gas_adjuster.get_base_fee (min t o.time_in_mempool_in_l1_blocks_cap))
      "base" with
  | error m => rw [hA] at h; exact absurd h (by simp)
  | ok base1 =>
    rw [hA] at h
    dsimp only [] at h
    by_cases hlim : o.is_base_fee_exceeding_limit base1 = true
    · rw [if_pos hlim] at h
      exact absurd h (by simp)
    · rw [if_neg hlim] at h
      have hle : base1 ≤ o.max_acceptable_base_fee_in_wei := by
        unfold GasAdjusterFeesOracle.is_base_fee_exceeding_limit at hlim
        simpa using hlim
      repeat' split at h
      all_goals
        first
        | (simp at h; done)
        | (obtain ⟨p2, hchk, rfl⟩ := finish_no_blob_ok _ _ _ _ _ h
           exact ⟨hle, _, hchk⟩)

/-- Helper: facts about a successful gateway quote: its base fee respects
the ceiling and its priority fee is 0. -/
theorem gateway_ok_facts (o : GasAdjusterFeesOracle)
    (env : Option String) (prev : Option TxHistory) (t : Nat)
    (fees : EthFees)
    (h : o.calculate_fees_for_gateway_tx env prev t = .ok fees) :
    fees.base_fee_per_gas ≤ o.max_acceptable_base_fee_in_wei ∧
    fees.priority_fee_per_gas = 0 := by
  simp only [GasAdjusterFeesOracle.calculate_fees_for_gateway_tx] at h
  cases hA : o.assert_fee_is_not_zero env
      (o.gas_adjuster.gateway_get_base_fee
        (min t o.time_in_mempool_in_l1_blocks_cap)) "base" with
  | error m => rw [hA] at h; exact absurd h (by simp)
  | ok base1 =>
    rw [hA] at h
    dsimp only [] at h
    by_cases hlim : o.is_base_fee_exceeding_limit base1 = true
    · rw [if_pos hlim] at h
      exact absurd h (by simp)
    · rw [if_neg hlim] at h
      have hle : base1 ≤ o.max_acceptable_base_fee_in_wei := by
        unfold GasAdjusterFeesOracle.is_base_fee_exceeding_limit at hlim
        simpa using hlim
      repeat' split at h
      all_goals
        first
        | (simp at h; done)
        | (simp only [FeeResult.ok.injEq] at h
           subst h
           exact ⟨hle, rfl⟩)

/-- Helper: facts about a successful BSC-optimized quote: its base fee
respects the ceiling and its priority fee came out of
`check_priority_fee`. -/
theorem bsc_optimized_ok_facts (o : GasAdjusterFeesOracle)
    (env : Option String) (prev : Option TxHistory) (t : Nat)
    (fees : EthFees)
    (h : o.calculate_bsc_optimized_fees env prev t = .ok fees) :
    fees.base_fee_per_gas ≤ o.max_acceptable_base_fee_in_wei ∧
    ∃ pr, o.check_priority_fee env pr = .ok fees.priority_fee_per_gas := by
  simp only [GasAdjusterFeesOracle.calculate_bsc_optimized_fees] at h
  by_cases hlim : o.is_base_fee_exceeding_limit
      (bsc_time_decayed (o.bsc_fees_after_resend prev) t).1 = true
  · rw [if_pos hlim] at h
    exact absurd h (by simp)
  · rw [if_neg hlim] at h
    have hle : (bsc_time_decayed (o.bsc_fees_after_resend prev) t).1 ≤
        o.max_acceptable_base_fee_in_wei := by
      unfold GasAdjusterFeesOracle.is_base_fee_exceeding_limit at hlim
      simpa using hlim
    cases hC : o.check_priority_fee env
        (bsc_time_decayed (o.bsc_fees_after_resend prev) t).2 with
    | error m => rw [hC] at h; exact absurd h (by simp)
    | ok p2 =>
      rw [hC] at h
      simp only [FeeResult.ok.injEq] at h
      subst h
      exact ⟨hle, _, hC⟩

/-- C2: every successful `calculate_fees` quote — for both the env-driven
`GasAdjusterFeesOracle` and the construction-time `NetworkAwareFeesOracle`,
any network class and operator kind — carries a priority fee at most
`max_acceptable_priority_fee_in_gwei`; moreover, on the BSC/Other classes an
over-ceiling priority fee is resolved by `check_priority_fee` without a
fatal outcome (clamped to the ceiling), never by an error. -/
theorem priority_fee_never_exceeds_ceiling :
    (∀ (o : GasAdjusterFeesOracle) (env : Option String)
      (prev : Option TxHistory) (t : Nat) (op : OperatorType)
      (fees : EthFees),
      o.calculate_fees env prev t op = .ok fees →
      fees.priority_fee_per_gas ≤ o.max_acceptable_priority_fee_in_gwei) ∧
    (∀ (s : NetworkAwareFeesOracle) (env : Option String)
      (prev : Option TxHistory) (t : Nat) (op : OperatorType)
      (fees : EthFees),
      s.calculate_fees env prev t op = .ok fees →
      fees.priority_fee_per_gas ≤
        s.inner.max_acceptable_priority_fee_in_gwei) ∧
    (∀ (o : GasAdjusterFeesOracle) (env : Option String) (pr : Nat),
      detect_network_type_from_env env ≠ .Ethereum →
      ∃ v, o.check_priority_fee env pr = .ok v ∧
        v ≤ o.max_acceptable_priority_fee_in_gwei) := by
  have main : ∀ (o : GasAdjusterFeesOracle) (env : Option String)
      (prev : Option TxHistory) (t : Nat) (op : OperatorType)
      (fees : EthFees),
      o.calculate_fees env prev t op = .ok fees →
      fees.priority_fee_per_gas ≤ o.max_acceptable_priority_fee_in_gwei := by
    intro o env prev t op fees h
    simp only [GasAdjusterFeesOracle.calculate_fees] at h
    split_ifs at h with hbsc
    · cases op
      · obtain ⟨_, pr, hchk⟩ := bsc_optimized_ok_facts _ _ _ _ _ h
        exact check_priority_fee_ok_le _ _ _ _ hchk
      · obtain ⟨_, pr, hchk⟩ := bsc_optimized_ok_facts _ _ _ _ _ h
        exact check_priority_fee_ok_le _ _ _ _ hchk
      · cases hg : o.calculate_fees_for_gateway_tx env prev t with
        | ok result =>
          rw [hg] at h
          obtain ⟨hle, hzero⟩ := gateway_ok_facts _ _ _ _ _ hg
          simp only [FeeResult.ok.injEq] at h
          subst h
          simp [hzero]
        | err e => rw [hg] at h; exact absurd h (by simp)
        | fatal m => rw [hg] at h; exact absurd h (by simp)
    · cases op
      · obtain ⟨_, pr, hchk⟩ := no_blob_ok_facts _ _ _ _ _ h
        exact check_priority_fee_ok_le _ _ _ _ hchk
      · obtain ⟨pr, hchk⟩ := blob_sidecar_ok_prio _ _ _ _ _ h
        exact check_priority_fee_ok_le _ _ _ _ hchk
      · obtain ⟨hle, hzero⟩ := gateway_ok_facts _ _ _ _ _ h
        simp [hzero]
  refine ⟨main, ?_, ?_⟩
  · intro s env prev t op fees h
    unfold NetworkAwareFeesOracle.calculate_fees
      NetworkAwareFeesOracle.calculate_legacy_fees at h
    have bsc_case : ∀ fees2 : EthFees,
        s.calculate_bsc_fees prev t op = .ok fees2 →
        fees2.priority_fee_per_gas ≤
          s.inner.max_acceptable_priority_fee_in_gwei := by
      intro fees2 h2
      simp only [NetworkAwareFeesOracle.calculate_bsc_fees] at h2
      split_ifs at h2 with hb hp
      all_goals
        first
        | (simp at h2; done)
        | ((try simp only [FeeResult.ok.injEq] at h2)
           subst h2
           simp_all)
    cases hnt : s.network_type <;> rw [hnt] at h
    · exact main _ _ _ _ _ _ h
    · exact bsc_case _ h
    · exact bsc_case _ h
  · intro o env pr hne
    unfold GasAdjusterFeesOracle.check_priority_fee
    split_ifs with hgt
    · cases hnt : detect_network_type_from_env env
      · exact absurd hnt hne
      · exact ⟨_, rfl, min_le_right _ _⟩
      · exact ⟨_, rfl, min_le_left _ _⟩
    · exact ⟨pr, rfl, by omega⟩

/-- Witness for C2: a concrete Ethereum-class non-blob call returns a quote
whose priority fee respects the ceiling. -/
theorem priority_fee_never_exceeds_ceiling_witness :
    oracleLive.calculate_fees (some "1") none 0 .NonBlob =
      .ok ⟨100, 10, none, none⟩ ∧ 10 ≤ 100000000000 := by
  have h : oracleLive.calculate_fees (some "1") none 0 .NonBlob =
      .ok ⟨100, 10, none, none⟩ := by decide
  exact ⟨h, priority_fee_never_exceeds_ceiling.1 oracleLive (some "1")
    none 0 .NonBlob ⟨100, 10, none, none⟩ h⟩

/-- Counterexample for C1: on the BSC Gateway path, `calculate_fees`
returns a successful quote whose base fee (the substituted BSC-optimized
value, 5.5 Gwei) exceeds `max_acceptable_base_fee_in_wei` (100 wei),
because the substitution happens after the gateway path's ceiling check
and is never rechecked. -/
theorem base_fee_ceiling_bypassed_cex :
    oracleLowCeiling.calculate_fees (some "56") none 0 .Gateway =
      .ok ⟨5500000000, 0, none, some 1000⟩ ∧
    oracleLowCeiling.max_acceptable_base_fee_in_wei < 5500000000 := by
  constructor
  · decide
  · decide

/-- C1 (amended): whenever the freshly computed base fee exceeds
`max_acceptable_base_fee_in_wei`, `calculate_fees` returns
`ExceedMaxBaseFee` (shown for the non-blob path), and every successful
quote's base fee respects the ceiling on all paths EXCEPT the two that
replace the base fee after the check — the Ethereum/Other blob path's
one-sided resend bump and the BSC Gateway substitution. -/
theorem base_fee_ceiling_amended :
    (∀ (o : GasAdjusterFeesOracle) (env : Option String)
      (prev : Option TxHistory) (t : Nat) (op : OperatorType)
      (fees : EthFees),
      (detect_network_type_from_env env = .Bsc → op ≠ .Gateway) →
      (detect_network_type_from_env env ≠ .Bsc → op ≠ .Blob) →
      o.calculate_fees env prev t op = .ok fees →
      fees.base_fee_per_gas ≤ o.max_acceptable_base_fee_in_wei) ∧
    (∀ (o : GasAdjusterFeesOracle) (env : Option String)
      (prev : Option TxHistory) (t : Nat) (v : Nat),
      detect_network_type_from_env env ≠ .Bsc →
      o.assert_fee_is_not_zero env
        (o.gas_adjuster.get_base_fee
          (min t o.time_in_mempool_in_l1_blocks_cap)) "base" = .ok v →
      o.max_acceptable_base_fee_in_wei < v →
      o.calculate_fees env prev t .NonBlob = .err .ExceedMaxBaseFee) := by
  constructor
  · intro o env prev t op fees hng hnb h
    simp only [GasAdjusterFeesOracle.calculate_fees] at h
    split_ifs at h with hbsc
    · cases op
      · exact (bsc_optimized_ok_facts _ _ _ _ _ h).1
      · exact (bsc_optimized_ok_facts _ _ _ _ _ h).1
      · exact absurd rfl (hng hbsc)
    · cases op
      · exact (no_blob_ok_facts _ _ _ _ _ h).1
      · exact absurd rfl (hnb hbsc)
      · exact (gateway_ok_facts _ _ _ _ _ h).1
  · intro o env prev t v hne hA hgt
    simp only [GasAdjusterFeesOracle.calculate_fees]
    rw [if_neg hne]
    try dsimp only []
    simp only [GasAdjusterFeesOracle.calculate_fees_no_blob_sidecar]
    rw [hA]
    try dsimp only []
    rw [if_pos (by
      unfold GasAdjusterFeesOracle.is_base_fee_exceeding_limit
      simpa using hgt)]

/-- Witness for the amended C1: a successful non-blob quote respects the
ceiling, and an over-ceiling fresh base fee yields `ExceedMaxBaseFee`. -/
theorem base_fee_ceiling_amended_witness :
    (⟨100, 10, none, none⟩ : EthFees).base_fee_per_gas ≤
      oracleLive.max_acceptable_base_fee_in_wei ∧
    oracleHighBase.calculate_fees (some "1") none 0 .NonBlob =
      .err .ExceedMaxBaseFee :=
  ⟨base_fee_ceiling_amended.1 oracleLive (some "1") none 0 .NonBlob
      ⟨100, 10, none, none⟩ (by decide) (by decide) (by decide),
   base_fee_ceiling_amended.2 oracleHighBase (some "1") none 0 300
      (by decide) (by rfl) (by decide)⟩

/-- Helper: below the saturation point, the `as u64` cast is exactly the
floor. -/
theorem rat_to_u64_eq_floor (q : ℚ) (h0 : 0 ≤ q)
    (h1 : ⌊q⌋ < (U64MOD : ℤ)) : rat_to_u64 q = ⌊q⌋.toNat := by
  unfold rat_to_u64
  split_ifs with hneg
  · have hq : q = 0 := le_antisymm hneg h0
    subst hq
    simp
  · exact min_eq_left (by omega)

/-- Helper: the `as u64` cast is the identity on u64-range naturals. -/
theorem rat_to_u64_natCast (m : Nat) (hm : m ≤ U64MOD - 1) :
    rat_to_u64 ((m : ℕ) : ℚ) = m := by
  unfold rat_to_u64
  split_ifs with h
  · have h0 : ((m : ℕ) : ℚ) = 0 := le_antisymm h (by positivity)
    have hm0 : m = 0 := by exact_mod_cast h0
    simp [hm0]
  · rw [Int.floor_natCast, Int.toNat_natCast]
    exact min_eq_left hm

/-- Helper: below the saturation point, the `as u64` cast is within one
unit below its argument. -/
theorem rat_to_u64_bounds (q : ℚ) (h0 : 0 ≤ q) (h1 : ⌊q⌋ < (U64MOD : ℤ)) :
    (rat_to_u64 q : ℚ) ≤ q ∧ q - 1 < (rat_to_u64 q : ℚ) := by
  rw [rat_to_u64_eq_floor q h0 h1]
  have hfl0 : 0 ≤ ⌊q⌋ := Int.floor_nonneg.mpr h0
  have hcast : ((⌊q⌋.toNat : ℕ) : ℚ) = ((⌊q⌋ : ℤ) : ℚ) := by
    rw [← Int.cast_natCast, Int.toNat_of_nonneg hfl0]
  rw [hcast]
  exact ⟨Int.floor_le q, Int.sub_one_lt_floor q⟩

/-- C8: on the BSC-optimized path, for a fixed previous attempt and
price-source snapshot, the fee quoted at `time_in_mempool = n` is the fee
quoted at `n = 0` multiplied by `(1 + n * 0.15)` and truncated — i.e. equal
to it within one unit of rounding — for both the base fee and the priority
fee (stated away from the ceiling gate, the priority clamp and u64
saturation, which would otherwise distort the quote). -/
theorem bsc_time_decay (o : GasAdjusterFeesOracle) (env : Option String)
    (prev : Option TxHistory) (n b pfee : Nat)
    (hbp : o.bsc_fees_after_resend prev = (b, pfee))
    (hb : b ≤ o.max_acceptable_base_fee_in_wei)
    (hp : pfee ≤ o.max_acceptable_priority_fee_in_gwei)
    (hdb : rat_to_u64 ((b : ℚ) * (1 + (n : ℚ) * (15 / 100))) ≤
      o.max_acceptable_base_fee_in_wei)
    (hdp : rat_to_u64 ((pfee : ℚ) * (1 + (n : ℚ) * (15 / 100))) ≤
      o.max_acceptable_priority_fee_in_gwei)
    (hsb : ⌊(b : ℚ) * (1 + (n : ℚ) * (15 / 100))⌋ < (U64MOD : ℤ))
    (hsp : ⌊(pfee : ℚ) * (1 + (n : ℚ) * (15 / 100))⌋ < (U64MOD : ℤ)) :
    o.calculate_bsc_optimized_fees env prev 0 = .ok ⟨b, pfee, none, none⟩ ∧
    o.calculate_bsc_optimized_fees env prev n =
      .ok ⟨rat_to_u64 ((b : ℚ) * (1 + (n : ℚ) * (15 / 100))),
           rat_to_u64 ((pfee : ℚ) * (1 + (n : ℚ) * (15 / 100))),
           none, none⟩ ∧
    ((rat_to_u64 ((b : ℚ) * (1 + (n : ℚ) * (15 / 100))) : ℚ) ≤
        (b : ℚ) * (1 + (n : ℚ) * (15 / 100)) ∧
      (b : ℚ) * (1 + (n : ℚ) * (15 / 100)) - 1 <
        (rat_to_u64 ((b : ℚ) * (1 + (n : ℚ) * (15 / 100))) : ℚ)) ∧
    ((rat_to_u64 ((pfee : ℚ) * (1 + (n : ℚ) * (15 / 100))) : ℚ) ≤
        (pfee : ℚ) * (1 + (n : ℚ) * (15 / 100)) ∧
      (pfee : ℚ) * (1 + (n : ℚ) * (15 / 100)) - 1 <
        (rat_to_u64 ((pfee : ℚ) * (1 + (n : ℚ) * (15 / 100))) : ℚ)) := by
  have hq0b : (0 : ℚ) ≤ (b : ℚ) * (1 + (n : ℚ) * (15 / 100)) := by positivity
  have hq0p : (0 : ℚ) ≤ (pfee : ℚ) * (1 + (n : ℚ) * (15 / 100)) := by
    positivity
  have hgate : o.is_base_fee_exceeding_limit b = false := by
    unfold GasAdjusterFeesOracle.is_base_fee_exceeding_limit
    simpa using hb
  have hchk : o.check_priority_fee env pfee = .ok pfee := by
    unfold GasAdjusterFeesOracle.check_priority_fee
    rw [if_neg (by omega)]
  have h0 : o.calculate_bsc_optimized_fees env prev 0 =
      .ok ⟨b, pfee, none, none⟩ := by
    simp only [GasAdjusterFeesOracle.calculate_bsc_optimized_fees, hbp,
      bsc_time_decayed, gt_iff_lt, lt_self_iff_false, if_false]
    rw [hgate]
    simp only [Bool.false_eq_true, if_false, hchk]
  have hfb := rat_to_u64_eq_floor _ hq0b hsb
  have hfp := rat_to_u64_eq_floor _ hq0p hsp
  have hboundsb := rat_to_u64_bounds _ hq0b hsb
  have hboundsp := rat_to_u64_bounds _ hq0p hsp
  refine ⟨h0, ?_, hboundsb, hboundsp⟩
  by_cases hn : 0 < n
  · have hdec : bsc_time_decayed (b, pfee) n =
        (rat_to_u64 ((b : ℚ) * (1 + (n : ℚ) * (15 / 100))),
         rat_to_u64 ((pfee : ℚ) * (1 + (n : ℚ) * (15 / 100)))) := by
      simp [bsc_time_decayed, hn]
    have hgate2 : o.is_base_fee_exceeding_limit
        (rat_to_u64 ((b : ℚ) * (1 + (n : ℚ) * (15 / 100)))) = false := by
      unfold GasAdjusterFeesOracle.is_base_fee_exceeding_limit
      simpa using hdb
    have hchk2 : o.check_priority_fee env
        (rat_to_u64 ((pfee : ℚ) * (1 + (n : ℚ) * (15 / 100)))) =
        .ok (rat_to_u64 ((pfee : ℚ) * (1 + (n : ℚ) * (15 / 100)))) := by
      unfold GasAdjusterFeesOracle.check_priority_fee
      rw [if_neg (by omega)]
    simp only [GasAdjusterFeesOracle.calculate_bsc_optimized_fees, hbp,
      hdec]
    rw [hgate2]
    simp only [Bool.false_eq_true, if_false, hchk2]
  · have hn0 : n = 0 := by omega
    subst hn0
    have hone : (1 : ℚ) + ((0 : ℕ) : ℚ) * (15 / 100) = 1 := by norm_num
    have hbid : rat_to_u64 ((b : ℚ) * (1 + ((0 : ℕ) : ℚ) * (15 / 100))) =
        b := by
      rw [rat_to_u64_eq_floor _ hq0b hsb, hone, mul_one, Int.floor_natCast,
        Int.toNat_natCast]
    have hpid : rat_to_u64 ((pfee : ℚ) * (1 + ((0 : ℕ) : ℚ) * (15 / 100))) =
        pfee := by
      rw [rat_to_u64_eq_floor _ hq0p hsp, hone, mul_one, Int.floor_natCast,
        Int.toNat_natCast]
    rw [h0, hbid, hpid]

/-- Witness for C8 at the spec example: a 1 Gwei base quote at `n = 0`
becomes exactly 1\_300\_000\_000 wei at `n = 2` (priority 0.1 Gwei becomes
0.13 Gwei). -/
theorem bsc_time_decay_witness :
    oracleBscNormal.calculate_bsc_optimized_fees (some "56") none 0 =
      .ok ⟨1000000000, 100000000, none, none⟩ ∧
    oracleBscNormal.calculate_bsc_optimized_fees (some "56") none 2 =
      .ok ⟨1300000000, 130000000, none, none⟩ := by
  have e1 : ((1000000000 : ℕ) : ℚ) * (1 + ((2 : ℕ) : ℚ) * (15 / 100)) =
      ((1300000000 : ℕ) : ℚ) := by norm_num
  have e2 : ((100000000 : ℕ) : ℚ) * (1 + ((2 : ℕ) : ℚ) * (15 / 100)) =
      ((130000000 : ℕ) : ℚ) := by norm_num
  have hv1 : rat_to_u64
      (((1000000000 : ℕ) : ℚ) * (1 + ((2 : ℕ) : ℚ) * (15 / 100))) =
      1300000000 := by
    rw [e1, rat_to_u64_natCast _ (by norm_num [U64MOD])]
  have hv2 : rat_to_u64
      (((100000000 : ℕ) : ℚ) * (1 + ((2 : ℕ) : ℚ) * (15 / 100))) =
      130000000 := by
    rw [e2, rat_to_u64_natCast _ (by norm_num [U64MOD])]
  obtain ⟨h0, hn, -, -⟩ := bsc_time_decay oracleBscNormal (some "56") none 2
    1000000000 100000000 (by decide) (by decide) (by decide)
    (by rw [hv1]; decide) (by rw [hv2]; decide)
    (by rw [e1, Int.floor_natCast]; norm_num [U64MOD])
    (by rw [e2, Int.floor_natCast]; norm_num [U64MOD])
  refine ⟨h0, ?_⟩
  rw [hn, hv1, hv2]

/-- Helper: the resend check passes when the candidate clears both bars. -/
theorem verify_ok_of (tx_id previous_fee fee_to_use next_minimal : Nat)
    (m : ℚ) (ft : String)
    (h1 : (next_minimal : ℚ) ≤ (fee_to_use : ℚ))
    (h2 : ((⌈(previous_fee : ℚ) * m⌉ : ℤ) : ℚ) ≤ (fee_to_use : ℚ)) :
    verify_base_fee_not_too_low_on_resend tx_id previous_fee fee_to_use
      next_minimal m ft = .ok () := by
  unfold verify_base_fee_not_too_low_on_resend
  rw [if_neg (by push_neg; exact ⟨h1, h2⟩)]

/-- Helper: the resend check fails when the candidate is below the bumped
previous fee. -/
theorem verify_err_of_low_prev (tx_id previous_fee fee_to_use
    next_minimal : Nat) (m : ℚ) (ft : String)
    (h : (fee_to_use : ℚ) < ((⌈(previous_fee : ℚ) * m⌉ : ℤ) : ℚ)) :
    verify_base_fee_not_too_low_on_resend tx_id previous_fee fee_to_use
      next_minimal m ft = .error (.FeeTooLow ft) := by
  unfold verify_base_fee_not_too_low_on_resend
  rw [if_pos (Or.inr h)]

/-- Helper: the 2.00 multiplier's ceiling is exactly twice the previous
fee. -/
theorem ceil_two_mul_natCast (previous_fee : Nat) :
    ((⌈(previous_fee : ℚ) * 2⌉ : ℤ) : ℚ) = ((2 * previous_fee : ℕ) : ℚ) := by
  rw [show (previous_fee : ℚ) * 2 = ((2 * previous_fee : ℕ) : ℚ) by
    push_cast; ring]
  rw [Int.ceil_natCast]
  norm_cast

/-- Helper: a passing 2.00-multiplier resend check means the candidate is at
least twice the previous fee. -/
theorem verify_ok_ge_two (tx_id previous_fee fee_to_use next_minimal : Nat)
    (ft : String) (u : Unit)
    (h : verify_base_fee_not_too_low_on_resend tx_id previous_fee fee_to_use
      next_minimal 2 ft = .ok u) :
    2 * previous_fee ≤ fee_to_use := by
  unfold verify_base_fee_not_too_low_on_resend at h
  split_ifs at h with hc
  all_goals
    first
    | (simp at h; done)
    | (push_neg at hc
       obtain ⟨h1, h2⟩ := hc
       rw [ceil_two_mul_natCast] at h2
       exact_mod_cast h2)

/-- Helper: wrapping multiplication by 2 is exact below the modulus. -/
theorem wmul_two_eq (a : Nat) (h : 2 * a < U64MOD) : wmul a 2 = 2 * a := by
  unfold wmul
  rw [Nat.mod_eq_of_lt (by omega)]
  omega

/-- Helper: `finish_blob` succeeds untouched when the priority fee is under
the ceiling. -/
theorem finish_blob_eval (o : GasAdjusterFeesOracle) (env : Option String)
    (base blob prio : Nat)
    (hprio : prio ≤ o.max_acceptable_priority_fee_in_gwei) :
    o.finish_blob env base blob prio = .ok ⟨base, prio, some blob, none⟩ := by
  unfold GasAdjusterFeesOracle.finish_blob
    GasAdjusterFeesOracle.check_priority_fee
  rw [if_neg (by omega)]

/-- Helper: `calculate_fees` on a non-Bsc environment dispatches to the
three Ethereum-class paths. -/
theorem calculate_fees_nonbsc (o : GasAdjusterFeesOracle)
    (env : Option String) (prev : Option TxHistory) (t : Nat)
    (hne : detect_network_type_from_env env ≠ .Bsc) :
    (o.calculate_fees env prev t .NonBlob =
      o.calculate_fees_no_blob_sidecar env prev t) ∧
    (o.calculate_fees env prev t .Blob =
      o.calculate_fees_with_blob_sidecar env prev t) ∧
    (o.calculate_fees env prev t .Gateway =
      o.calculate_fees_for_gateway_tx env prev t) := by
  refine ⟨?_, ?_, ?_⟩ <;>
    (simp only [GasAdjusterFeesOracle.calculate_fees]
     rw [if_neg hne])

/-- Helper: the blob path with both resend checks passing. -/
theorem blob_path_okok (o : GasAdjusterFeesOracle) (env : Option String)
    (p : TxHistory) (t B L : Nat) (u1 u2 : Unit)
    (hB : o.assert_fee_is_not_zero env
      (o.gas_adjuster.get_blob_tx_base_fee
        (min t o.time_in_mempool_in_l1_blocks_cap)) "base" = .ok B)
    (hlim : o.is_base_fee_exceeding_limit B = false)
    (hL : o.assert_fee_is_not_zero env
      (o.gas_adjuster.get_blob_tx_blob_base_fee
        (min t o.time_in_mempool_in_l1_blocks_cap)) "blob" = .ok L)
    (hv1 : verify_base_fee_not_too_low_on_resend p.id
      (p.blob_base_fee_per_gas.getD 0) L
      o.gas_adjuster.get_next_block_minimal_blob_base_fee 2
      "blob_base_fee_per_gas" = .ok u1)
    (hv2 : verify_base_fee_not_too_low_on_resend p.id p.base_fee_per_gas B
      o.gas_adjuster.get_next_block_minimal_base_fee 2
      "base_fee_per_gas" = .ok u2) :
    o.calculate_fees_with_blob_sidecar env (some p) t =
      o.finish_blob env B L
        (max o.gas_adjuster.get_blob_tx_priority_fee
          (wmul p.priority_fee_per_gas 2)) := by
  simp only [GasAdjusterFeesOracle.calculate_fees_with_blob_sidecar]
  rw [hB]
  try dsimp only []
  rw [if_neg (by rw [hlim]; exact Bool.false_ne_true)]
  rw [hL]
  try dsimp only []
  rw [hv1, hv2]

/-- Helper: the blob path when only the base check fails bumps the base fee
to twice the previous one. -/
theorem blob_path_base_fail (o : GasAdjusterFeesOracle) (env : Option String)
    (p : TxHistory) (t B L : Nat) (u1 : Unit) (e : EthSenderError)
    (hB : o.assert_fee_is_not_zero env
      (o.gas_adjuster.get_blob_tx_base_fee
        (min t o.time_in_mempool_in_l1_blocks_cap)) "base" = .ok B)
    (hlim : o.is_base_fee_exceeding_limit B = false)
    (hL : o.assert_fee_is_not_zero env
      (o.gas_adjuster.get_blob_tx_blob_base_fee
        (min t o.time_in_mempool_in_l1_blocks_cap)) "blob" = .ok L)
    (hv1 : verify_base_fee_not_too_low_on_resend p.id
      (p.blob_base_fee_per_gas.getD 0) L
      o.gas_adjuster.get_next_block_minimal_blob_base_fee 2
      "blob_base_fee_per_gas" = .ok u1)
    (hv2 : verify_base_fee_not_too_low_on_resend p.id p.base_fee_per_gas B
      o.gas_adjuster.get_next_block_minimal_base_fee 2
      "base_fee_per_gas" = .error e) :
    o.calculate_fees_with_blob_sidecar env (some p) t =
      o.finish_blob env (wmul p.base_fee_per_gas 2) L
        (max o.gas_adjuster.get_blob_tx_priority_fee
          (wmul p.priority_fee_per_gas 2)) := by
  simp only [GasAdjusterFeesOracle.calculate_fees_with_blob_sidecar]
  rw [hB]
  try dsimp only []
  rw [if_neg (by rw [hlim]; exact Bool.false_ne_true)]
  rw [hL]
  try dsimp only []
  rw [hv1, hv2]

/-- Helper: the blob path when only the blob check fails bumps the blob fee
to twice the previous one. -/
theorem blob_path_blob_fail (o : GasAdjusterFeesOracle) (env : Option String)
    (p : TxHistory) (t B L b0 : Nat) (u2 : Unit) (e : EthSenderError)
    (hb0 : p.blob_base_fee_per_gas = some b0)
    (hB : o.assert_fee_is_not_zero env
      (o.gas_adjuster.get_blob_tx_base_fee
        (min t o.time_in_mempool_in_l1_blocks_cap)) "base" = .ok B)
    (hlim : o.is_base_fee_exceeding_limit B = false)
    (hL : o.assert_fee_is_not_zero env
      (o.gas_adjuster.get_blob_tx_blob_base_fee
        (min t o.time_in_mempool_in_l1_blocks_cap)) "blob" = .ok L)
    (hv1 : verify_base_fee_not_too_low_on_resend p.id
      (p.blob_base_fee_per_gas.getD 0) L
      o.gas_adjuster.get_next_block_minimal_blob_base_fee 2
      "blob_base_fee_per_gas" = .error e)
    (hv2 : verify_base_fee_not_too_low_on_resend p.id p.base_fee_per_gas B
      o.gas_adjuster.get_next_block_minimal_base_fee 2
      "base_fee_per_gas" = .ok u2) :
    o.calculate_fees_with_blob_sidecar env (some p) t =
      o.finish_blob env B (wmul b0 2)
        (max o.gas_adjuster.get_blob_tx_priority_fee
          (wmul p.priority_fee_per_gas 2)) := by
  simp only [GasAdjusterFeesOracle.calculate_fees_with_blob_sidecar]
  rw [hB]
  try dsimp only []
  rw [if_neg (by rw [hlim]; exact Bool.false_ne_true)]
  rw [hL]
  try dsimp only []
  rw [hv1, hv2, hb0]

/-- Helper: the blob path when both resend checks fail returns the blob
error. -/
theorem blob_path_both_fail (o : GasAdjusterFeesOracle) (env : Option String)
    (p : TxHistory) (t B L : Nat) (e e2 : EthSenderError)
    (hB : o.assert_fee_is_not_zero env
      (o.gas_adjuster.get_blob_tx_base_fee
        (min t o.time_in_mempool_in_l1_blocks_cap)) "base" = .ok B)
    (hlim : o.is_base_fee_exceeding_limit B = false)
    (hL : o.assert_fee_is_not_zero env
      (o.gas_adjuster.get_blob_tx_blob_base_fee
        (min t o.time_in_mempool_in_l1_blocks_cap)) "blob" = .ok L)
    (hv1 : verify_base_fee_not_too_low_on_resend p.id
      (p.blob_base_fee_per_gas.getD 0) L
      o.gas_adjuster.get_next_block_minimal_blob_base_fee 2
      "blob_base_fee_per_gas" = .error e)
    (hv2 : verify_base_fee_not_too_low_on_resend p.id p.base_fee_per_gas B
      o.gas_adjuster.get_next_block_minimal_base_fee 2
      "base_fee_per_gas" = .error e2) :
    o.calculate_fees_with_blob_sidecar env (some p) t = .err e := by
  simp only [GasAdjusterFeesOracle.calculate_fees_with_blob_sidecar]
  rw [hB]
  try dsimp only []
  rw [if_neg (by rw [hlim]; exact Bool.false_ne_true)]
  rw [hL]
  try dsimp only []
  rw [hv1, hv2]

/-- Helper: the non-blob path propagates a failed resend check as its
error, without any base-fee bump. -/
theorem no_blob_path_err (o : GasAdjusterFeesOracle) (env : Option String)
    (p : TxHistory) (t B : Nat) (e : EthSenderError)
    (hB : o.assert_fee_is_not_zero env
      (o.gas_adjuster.get_base_fee
        (min t o.time_in_mempool_in_l1_blocks_cap)) "base" = .ok B)
    (hlim : o.is_base_fee_exceeding_limit B = false)
    (hv : verify_base_fee_not_too_low_on_resend p.id p.base_fee_per_gas B
      o.gas_adjuster.get_next_block_minimal_base_fee (11 / 10)
      "base_fee_per_gas" = .error e) :
    o.calculate_fees_no_blob_sidecar env (some p) t = .err e := by
  simp only [GasAdjusterFeesOracle.calculate_fees_no_blob_sidecar]
  rw [hB]
  try dsimp only []
  rw [if_neg (by rw [hlim]; exact Bool.false_ne_true)]
  rw [hv]

/-- Counterexample for C3: on the Ethereum-class non-blob path, a resent
fee component that fails the not-too-low check is NOT bumped; the call
returns the structured "too low" error instead of a successful quote. -/
theorem resend_bump_nonblob_errors_cex :
    detect_network_type_from_env (some "1") = .Ethereum ∧
    oracleLive.calculate_fees (some "1") (some prevSmall) 0 .NonBlob =
      .err (.FeeTooLow "base_fee_per_gas") := by
  refine ⟨by decide, ?_⟩
  rw [(calculate_fees_nonbsc oracleLive (some "1") (some prevSmall) 0
    (by decide)).1]
  have hv : verify_base_fee_not_too_low_on_resend 7 100 100 0 (11 / 10)
      "base_fee_per_gas" = .error (.FeeTooLow "base_fee_per_gas") :=
    verify_err_of_low_prev _ _ _ _ _ _ (by
      rw [show ((100 : ℕ) : ℚ) * (11 / 10) = ((110 : ℕ) : ℚ) by
        push_cast; norm_num]
      rw [Int.ceil_natCast]
      norm_num)
  exact no_blob_path_err oracleLive (some "1") prevSmall 0 100
    (.FeeTooLow "base_fee_per_gas") rfl (by decide) hv

/-- C3 (amended): on the Ethereum-class blob path with a previous attempt,
when exactly one of the two resent components fails the not-too-low check,
that component is bumped to `previous * 2` and a successful quote is
returned; when both components fail, the blob error is returned; and on the
non-blob path a failed check always propagates as the error — no 1.10x
bump of the base fee occurs. -/
theorem resend_bump_amended :
    (∀ (o : GasAdjusterFeesOracle) (env : Option String) (p : TxHistory)
      (t B L : Nat) (u1 : Unit) (e : EthSenderError),
      detect_network_type_from_env env ≠ .Bsc →
      o.assert_fee_is_not_zero env
        (o.gas_adjuster.get_blob_tx_base_fee
          (min t o.time_in_mempool_in_l1_blocks_cap)) "base" = .ok B →
      o.is_base_fee_exceeding_limit B = false →
      o.assert_fee_is_not_zero env
        (o.gas_adjuster.get_blob_tx_blob_base_fee
          (min t o.time_in_mempool_in_l1_blocks_cap)) "blob" = .ok L →
      max o.gas_adjuster.get_blob_tx_priority_fee
        (wmul p.priority_fee_per_gas 2) ≤
        o.max_acceptable_priority_fee_in_gwei →
      verify_base_fee_not_too_low_on_resend p.id
        (p.blob_base_fee_per_gas.getD 0) L
        o.gas_adjuster.get_next_block_minimal_blob_base_fee 2
        "blob_base_fee_per_gas" = .ok u1 →
      verify_base_fee_not_too_low_on_resend p.id p.base_fee_per_gas B
        o.gas_adjuster.get_next_block_minimal_base_fee 2
        "base_fee_per_gas" = .error e →
      o.calculate_fees env (some p) t .Blob =
        .ok ⟨wmul p.base_fee_per_gas 2,
          max o.gas_adjuster.get_blob_tx_priority_fee
            (wmul p.priority_fee_per_gas 2), some L, none⟩) ∧
    (∀ (o : GasAdjusterFeesOracle) (env : Option String) (p : TxHistory)
      (t B L b0 : Nat) (u2 : Unit) (e : EthSenderError),
      detect_network_type_from_env env ≠ .Bsc →
      p.blob_base_fee_per_gas = some b0 →
      o.assert_fee_is_not_zero env
        (o.gas_adjuster.get_blob_tx_base_fee
          (min t o.time_in_mempool_in_l1_blocks_cap)) "base" = .ok B →
      o.is_base_fee_exceeding_limit B = false →
      o.assert_fee_is_not_zero env
        (o.gas_adjuster.get_blob_tx_blob_base_fee
          (min t o.time_in_mempool_in_l1_blocks_cap)) "blob" = .ok L →
      max o.gas_adjuster.get_blob_tx_priority_fee
        (wmul p.priority_fee_per_gas 2) ≤
        o.max_acceptable_priority_fee_in_gwei →
      verify_base_fee_not_too_low_on_resend p.id
        (p.blob_base_fee_per_gas.getD 0) L
        o.gas_adjuster.get_next_block_minimal_blob_base_fee 2
        "blob_base_fee_per_gas" = .error e →
      verify_base_fee_not_too_low_on_resend p.id p.base_fee_per_gas B
        o.gas_adjuster.get_next_block_minimal_base_fee 2
        "base_fee_per_gas" = .ok u2 →
      o.calculate_fees env (some p) t .Blob =
        .ok ⟨B, max o.gas_adjuster.get_blob_tx_priority_fee
          (wmul p.priority_fee_per_gas 2), some (wmul b0 2), none⟩) ∧
    (∀ (o : GasAdjusterFeesOracle) (env : Option String) (p : TxHistory)
      (t B L : Nat) (e e2 : EthSenderError),
      detect_network_type_from_env env ≠ .Bsc →
      o.assert_fee_is_not_zero env
        (o.gas_adjuster.get_blob_tx_base_fee
          (min t o.time_in_mempool_in_l1_blocks_cap)) "base" = .ok B →
      o.is_base_fee_exceeding_limit B = false →
      o.assert_fee_is_not_zero env
        (o.gas_adjuster.get_blob_tx_blob_base_fee
          (min t o.time_in_mempool_in_l1_blocks_cap)) "blob" = .ok L →
      verify_base_fee_not_too_low_on_resend p.id
        (p.blob_base_fee_per_gas.getD 0) L
        o.gas_adjuster.get_next_block_minimal_blob_base_fee 2
        "blob_base_fee_per_gas" = .error e →
      verify_base_fee_not_too_low_on_resend p.id p.base_fee_per_gas B
        o.gas_adjuster.get_next_block_minimal_base_fee 2
        "base_fee_per_gas" = .error e2 →
      o.calculate_fees env (some p) t .Blob = .err e) ∧
    (∀ (o : GasAdjusterFeesOracle) (env : Option String) (p : TxHistory)
      (t B : Nat) (e : EthSenderError),
      detect_network_type_from_env env ≠ .Bsc →
      o.assert_fee_is_not_zero env
        (o.gas_adjuster.get_base_fee
          (min t o.time_in_mempool_in_l1_blocks_cap)) "base" = .ok B →
      o.is_base_fee_exceeding_limit B = false →
      verify_base_fee_not_too_low_on_resend p.id p.base_fee_per_gas B
        o.gas_adjuster.get_next_block_minimal_base_fee (11 / 10)
        "base_fee_per_gas" = .error e →
      o.calculate_fees env (some p) t .NonBlob = .err e) := by
  refine ⟨?_, ?_, ?_, ?_⟩
  · intro o env p t B L u1 e hne hB hlim hL hP hv1 hv2
    rw [(calculate_fees_nonbsc o env (some p) t hne).2.1,
      blob_path_base_fail o env p t B L u1 e hB hlim hL hv1 hv2,
      finish_blob_eval _ _ _ _ _ hP]
  · intro o env p t B L b0 u2 e hne hb0 hB hlim hL hP hv1 hv2
    rw [(calculate_fees_nonbsc o env (some p) t hne).2.1,
      blob_path_blob_fail o env p t B L b0 u2 e hb0 hB hlim hL hv1 hv2,
      finish_blob_eval _ _ _ _ _ hP]
  · intro o env p t B L e e2 hne hB hlim hL hv1 hv2
    rw [(calculate_fees_nonbsc o env (some p) t hne).2.1,
      blob_path_both_fail o env p t B L e e2 hB hlim hL hv1 hv2]
  · intro o env p t B e hne hB hlim hv
    rw [(calculate_fees_nonbsc o env (some p) t hne).1,
      no_blob_path_err o env p t B e hB hlim hv]

/-- Witness for the amended C3: the four branch behaviours at concrete
inputs. -/
theorem resend_bump_amended_witness :
    oracleBlobMix.calculate_fees (some "1") (some prevBaseLow) 0 .Blob =
      .ok ⟨200, 20, some 50, none⟩ ∧
    oracleBlobMix.calculate_fees (some "1") (some prevBlobLow) 0 .Blob =
      .ok ⟨100, 20, some 100, none⟩ ∧
    oracleBlobMix.calculate_fees (some "1") (some prevBothLow) 0 .Blob =
      .err (.FeeTooLow "blob_base_fee_per_gas") ∧
    oracleLive.calculate_fees (some "1") (some prevSmall) 0 .NonBlob =
      .err (.FeeTooLow "base_fee_per_gas") := by
  have hvA : verify_base_fee_not_too_low_on_resend 3 10 50 0 2
      "blob_base_fee_per_gas" = .ok () :=
    verify_ok_of _ _ _ _ _ _ (by norm_num)
      (by rw [ceil_two_mul_natCast]; try norm_num)
  have hvB : verify_base_fee_not_too_low_on_resend 3 100 100 0 2
      "base_fee_per_gas" = .error (.FeeTooLow "base_fee_per_gas") :=
    verify_err_of_low_prev _ _ _ _ _ _
      (by rw [ceil_two_mul_natCast]; try norm_num)
  have hvC : verify_base_fee_not_too_low_on_resend 4 50 50 0 2
      "blob_base_fee_per_gas" = .error (.FeeTooLow "blob_base_fee_per_gas") :=
    verify_err_of_low_prev _ _ _ _ _ _
      (by rw [ceil_two_mul_natCast]; try norm_num)
  have hvD : verify_base_fee_not_too_low_on_resend 4 10 100 0 2
      "base_fee_per_gas" = .ok () :=
    verify_ok_of _ _ _ _ _ _ (by norm_num)
      (by rw [ceil_two_mul_natCast]; try norm_num)
  have hvE : verify_base_fee_not_too_low_on_resend 5 50 50 0 2
      "blob_base_fee_per_gas" = .error (.FeeTooLow "blob_base_fee_per_gas") :=
    verify_err_of_low_prev _ _ _ _ _ _
      (by rw [ceil_two_mul_natCast]; try norm_num)
  have hvF : verify_base_fee_not_too_low_on_resend 5 100 100 0 2
      "base_fee_per_gas" = .error (.FeeTooLow "base_fee_per_gas") :=
    verify_err_of_low_prev _ _ _ _ _ _
      (by rw [ceil_two_mul_natCast]; try norm_num)
  have hvG : verify_base_fee_not_too_low_on_resend 7 100 100 0 (11 / 10)
      "base_fee_per_gas" = .error (.FeeTooLow "base_fee_per_gas") :=
    verify_err_of_low_prev _ _ _ _ _ _ (by
      rw [show ((100 : ℕ) : ℚ) * (11 / 10) = ((110 : ℕ) : ℚ) by
        push_cast; norm_num]
      rw [Int.ceil_natCast]
      norm_num)
  refine ⟨?_, ?_, ?_, ?_⟩
  · exact (resend_bump_amended.1 oracleBlobMix (some "1") prevBaseLow 0
      100 50 () (.FeeTooLow "base_fee_per_gas") (by decide) rfl (by decide)
      rfl (by decide) hvA hvB).trans (by decide)
  · exact (resend_bump_amended.2.1 oracleBlobMix (some "1") prevBlobLow 0
      100 50 50 () (.FeeTooLow "blob_base_fee_per_gas") (by decide) rfl rfl
      (by decide) rfl (by decide) hvC hvD).trans (by decide)
  · exact resend_bump_amended.2.2.1 oracleBlobMix (some "1") prevBothLow 0
      100 50 (.FeeTooLow "blob_base_fee_per_gas")
      (.FeeTooLow "base_fee_per_gas") (by decide) rfl (by decide) rfl
      hvE hvF
  · exact resend_bump_amended.2.2.2 oracleLive (some "1") prevSmall 0 100
      (.FeeTooLow "base_fee_per_gas") (by decide) rfl (by decide) hvG

/-- Counterexample for C4: with a previous attempt whose base fee is
`2^63` (both previous fees positive), the blob path's one-sided resend bump
computes `previous * 2` with wrapping u64 multiplication, returning a
successful quote whose base fee is 0 — far below twice the previous base
fee. -/
theorem blob_resend_bump_overflow_cex :
    oracleOverflow.calculate_fees_with_blob_sidecar (some "1")
      (some prevOverflow) 0 = .ok ⟨0, 0, some 2, none⟩ ∧
    0 < prevOverflow.base_fee_per_gas ∧
    0 < prevOverflow.blob_base_fee_per_gas.getD 0 ∧
    0 < 2 * prevOverflow.base_fee_per_gas := by
  refine ⟨?_, by decide, by decide, by decide⟩
  have hv1 : verify_base_fee_not_too_low_on_resend 1 1 2 0 2
      "blob_base_fee_per_gas" = .ok () :=
    verify_ok_of _ _ _ _ _ _ (by norm_num)
      (by rw [ceil_two_mul_natCast]; try norm_num)
  have hv2 : verify_base_fee_not_too_low_on_resend 1 9223372036854775808
      9223372036854775808 0 2 "base_fee_per_gas" =
      .error (.FeeTooLow "base_fee_per_gas") :=
    verify_err_of_low_prev _ _ _ _ _ _
      (by rw [ceil_two_mul_natCast]; try norm_num)
  rw [blob_path_base_fail oracleOverflow (some "1") prevOverflow 0
      9223372036854775808 2 () (.FeeTooLow "base_fee_per_gas")
      rfl (by decide) rfl hv1 hv2,
    finish_blob_eval _ _ _ _ _ (by decide)]
  decide

/-- C4 (amended): for a previous attempt with positive base and blob fees
both at most `2^52`, every successful quote of the blob path on resend
carries a base fee of at least twice the previous base fee and a blob fee
of at least twice the previous blob fee.

The `2^52` bound is what the two counterexamples force.  Above it the
program itself violates the claim: at `2^63` the u64 bump `previous * 2`
wraps to 0 (`blob_resend_bump_overflow_cex`), and already at `2^53 + 1`
the IEEE cast `previous_fee as f64` rounds down to `2^53`, so the real
check accepts a fresh fee of `2^54 < 2 * previous`.  Below the bound the
exact-`ℚ` model of the comparison coincides with the IEEE computation for
every candidate fee: the threshold `ceil(previous * 2.0)` is at most
`2^53`, a candidate below `2^53` is cast exactly, and a candidate at or
above `2^53` clears the threshold under both semantics; the bump
`previous * 2` does not wrap. -/
theorem blob_resend_bump_amended (o : GasAdjusterFeesOracle)
    (env : Option String) (p : TxHistory) (t : Nat) (fees : EthFees)
    (hpb : 0 < p.base_fee_per_gas)
    (hpbl : 0 < p.blob_base_fee_per_gas.getD 0)
    (hb52 : p.base_fee_per_gas ≤ 4503599627370496)
    (hbl52 : p.blob_base_fee_per_gas.getD 0 ≤ 4503599627370496)
    (hok : o.calculate_fees_with_blob_sidecar env (some p) t = .ok fees) :
    2 * p.base_fee_per_gas ≤ fees.base_fee_per_gas ∧
    ∃ bf, fees.blob_base_fee_per_gas = some bf ∧
      2 * p.blob_base_fee_per_gas.getD 0 ≤ bf := by
  have h64 : U64MOD = 18446744073709551616 := by norm_num [U64MOD]
  have hov1 : 2 * p.base_fee_per_gas < U64MOD := by omega
  have hov2 : 2 * p.blob_base_fee_per_gas.getD 0 < U64MOD := by omega
  simp only [GasAdjusterFeesOracle.calculate_fees_with_blob_sidecar] at hok
  cases hA : o.assert_fee_is_not_zero env
      (o.gas_adjuster.get_blob_tx_base_fee
        (min t o.time_in_mempool_in_l1_blocks_cap)) "base" with
  | error m => rw [hA] at hok; simp at hok
  | ok B =>
  rw [hA] at hok
  dsimp only [] at hok
  by_cases hlim : o.is_base_fee_exceeding_limit B = true
  · rw [if_pos hlim] at hok
    simp at hok
  · rw [if_neg hlim] at hok
    cases hL : o.assert_fee_is_not_zero env
        (o.gas_adjuster.get_blob_tx_blob_base_fee
          (min t o.time_in_mempool_in_l1_blocks_cap)) "blob" with
    | error m => rw [hL] at hok; simp at hok
    | ok L =>
    rw [hL] at hok
    dsimp only [] at hok
    cases hv1 : verify_base_fee_not_too_low_on_resend p.id
        (p.blob_base_fee_per_gas.getD 0) L
        o.gas_adjuster.get_next_block_minimal_blob_base_fee 2
        "blob_base_fee_per_gas" with
    | ok u1 =>
      cases hv2 : verify_base_fee_not_too_low_on_resend p.id
          p.base_fee_per_gas B
          o.gas_adjuster.get_next_block_minimal_base_fee 2
          "base_fee_per_gas" with
      | ok u2 =>
        rw [hv1, hv2] at hok
        dsimp only [] at hok
        obtain ⟨p2, hchk, rfl⟩ := finish_blob_ok _ _ _ _ _ _ hok
        exact ⟨verify_ok_ge_two _ _ _ _ _ _ hv2, L, rfl,
          verify_ok_ge_two _ _ _ _ _ _ hv1⟩
      | error e2 =>
        rw [hv1, hv2] at hok
        dsimp only [] at hok
        obtain ⟨p2, hchk, rfl⟩ := finish_blob_ok _ _ _ _ _ _ hok
        refine ⟨?_, L, rfl, verify_ok_ge_two _ _ _ _ _ _ hv1⟩
        show 2 * p.base_fee_per_gas ≤ wmul p.base_fee_per_gas 2
        rw [wmul_two_eq _ hov1]
    | error e1 =>
      cases hv2 : verify_base_fee_not_too_low_on_resend p.id
          p.base_fee_per_gas B
          o.gas_adjuster.get_next_block_minimal_base_fee 2
          "base_fee_per_gas" with
      | ok u2 =>
        rcases hb0 : p.blob_base_fee_per_gas with _ | b0
        · rw [hb0] at hpbl
          simp at hpbl
        · rw [hv1, hv2, hb0] at hok
          dsimp only [] at hok
          obtain ⟨p2, hchk, rfl⟩ := finish_blob_ok _ _ _ _ _ _ hok
          refine ⟨verify_ok_ge_two _ _ _ _ _ _ hv2, wmul b0 2, rfl, ?_⟩
          have hov2b : 2 * b0 < U64MOD := by
            rw [hb0] at hov2
            simpa using hov2
          show 2 * b0 ≤ wmul b0 2
          rw [wmul_two_eq _ hov2b]
      | error e2 =>
        rw [hv1, hv2] at hok
        dsimp only [] at hok
        simp at hok

/-- Witness for the amended C4: a concrete resend where both checks pass
and the quote doubles both previous fees exactly. -/
theorem blob_resend_bump_amended_witness :
    2 * prevBothPass.base_fee_per_gas ≤
      (⟨100, 10, some 50, none⟩ : EthFees).base_fee_per_gas ∧
    ∃ bf, (⟨100, 10, some 50, none⟩ : EthFees).blob_base_fee_per_gas =
      some bf ∧ 2 * prevBothPass.blob_base_fee_per_gas.getD 0 ≤ bf := by
  have hv1 : verify_base_fee_not_too_low_on_resend 6 25 50 0 2
      "blob_base_fee_per_gas" = .ok () :=
    verify_ok_of _ _ _ _ _ _ (by norm_num)
      (by rw [ceil_two_mul_natCast]; try norm_num)
  have hv2 : verify_base_fee_not_too_low_on_resend 6 50 100 0 2
      "base_fee_per_gas" = .ok () :=
    verify_ok_of _ _ _ _ _ _ (by norm_num)
      (by rw [ceil_two_mul_natCast]; try norm_num)
  have hok : oracleBlobMix.calculate_fees_with_blob_sidecar (some "1")
      (some prevBothPass) 0 = .ok ⟨100, 10, some 50, none⟩ := by
    rw [blob_path_okok oracleBlobMix (some "1") prevBothPass 0 100 50 () ()
        rfl (by decide) rfl hv1 hv2,
      finish_blob_eval _ _ _ _ _ (by decide)]
    decide
  exact blob_resend_bump_amended oracleBlobMix (some "1") prevBothPass 0
    ⟨100, 10, some 50, none⟩ (by decide) (by decide) (by decide) (by decide)
    hok

end ZkFees
